import Mathlib

/-!
# Device-session backend of wlroots (`backend/session/udev.c`, `backend/session/demi.c`)

A shallow embedding of the two device backends: the hotplug event translator
`dev_handle_event` and the GPU enumerator `dev_find_gpus`, one copy per backend
(namespaces `udev` and `demi`).

Conventions of the embedding:

* C strings are `String` values (no embedded NUL); a `NULL` pointer is `none`.
* Calls into libudev, libdemi, libc and the compositor (`session_open_if_kms`,
  `wl_event_loop_dispatch`, `clock_gettime`) are inputs: the value each call returns
  is part of the device, scan entry or dispatch step the function is run on.
* Effects that a caller can observe are returned as lists, in program order:
  the signals emitted, the indices of the output array written, the arguments handed
  to `session_open_if_kms`, the timeouts handed to `wl_event_loop_dispatch` and the
  acquire and release operations on scan handles, listeners and devices.
* `uint64_t` arithmetic is arithmetic on `Nat` modulo `2 ^ 64`.
-/

/-! ## Shared data model -/

/-- Modelled from the spec: `struct wlr_device` of `wlr/backend/session.h`, an open
device record of the session, with its file descriptor and the device number that keys
it. -/
structure wlr_device where
  fd : Int
  dev : Nat
deriving DecidableEq, Repr

/-- Modelled from the spec: `struct wlr_session` of `wlr/backend/session.h`, reduced to
what the backends read: the seat name and the list of open device records. -/
structure wlr_session where
  seat : String
  devices : List wlr_device
deriving DecidableEq, Repr

/-- Modelled from the spec: `struct wlr_session_add_event`, the payload of the
`add_drm_card` signal, which carries the device node path. -/
structure wlr_session_add_event where
  path : String
deriving DecidableEq, Repr

/-- Modelled from the spec: `enum wlr_device_change_type`, the kind of a change payload
(hotplug ids or a lease marker); `zero` is the value of a zero-initialised field, the
empty payload. -/
inductive wlr_device_change_type where
  | zero
  | WLR_DEVICE_HOTPLUG
  | WLR_DEVICE_LEASE
deriving DecidableEq, Repr

/-- Modelled from the spec: `struct wlr_device_change_event`, the payload of a device
`change` signal, with the hotplug member flattened; the ids are `uint32_t`. -/
structure wlr_device_change_event where
  type : wlr_device_change_type
  connector_id : Nat
  prop_id : Nat
deriving DecidableEq, Repr

/-- The signals the backends emit on. -/
inductive wl_signal where
  | session_add_drm_card
  | device_change (dev : wlr_device)
  | device_remove (dev : wlr_device)
deriving DecidableEq, Repr

/-- The `data` pointer handed to `wlr_signal_emit_safe`. -/
inductive signal_data where
  | null
  | add_event (event : wlr_session_add_event)
  | change_event (event : wlr_device_change_event)
deriving DecidableEq, Repr

/-- One call of `wlr_signal_emit_safe(signal, data)`. -/
structure emission where
  signal : wl_signal
  data : signal_data
deriving DecidableEq, Repr

/-- How a call of `dev_handle_event` ends: it returns a value after emitting the listed
signals, or it reaches `abort()`. -/
inductive handle_outcome where
  | returned (value : Int) (emitted : List emission)
  | aborted
deriving DecidableEq, Repr

/-- The output of the scan loop of `dev_find_gpus`: the output array, the running count,
the indices stored to and the device nodes handed to `session_open_if_kms`. -/
structure find_state where
  ret : Nat → Option wlr_device
  count : Nat
  writes : List Nat
  opens : List (Option String)

/-- The store `ret[i] = v`. -/
def store (ret : Nat → Option wlr_device) (i : Nat) (v : Option wlr_device) :
    Nat → Option wlr_device :=
  fun j => if j = i then v else ret j

/-- The seat filter in the words of the specification: an event or candidate with
optional seat identifier `s` passes iff the session seat is empty or equals `s`, where an
absent `s` counts as `seat0`. -/
def seat_filter_spec (session_seat : String) (s : Option String) : Bool :=
  decide (session_seat = "") || decide (session_seat = s.getD "seat0")

/-! ## libc -/

/-- The C `isspace` in the C locale. -/
def isspace (c : Char) : Bool :=
  c.toNat = 32 || (9 ≤ c.toNat && c.toNat ≤ 13)

/-- The C `isdigit`. -/
def isdigit (c : Char) : Bool :=
  48 ≤ c.toNat && c.toNat ≤ 57

/-- Largest `unsigned long` (LP64). -/
def ULONG_MAX : Nat := 2 ^ 64 - 1

/-- The C `strtoul(nptr, NULL, 10)`: leading white space, an optional sign, then the
longest run of decimal digits; the value saturates at `ULONG_MAX` and a minus sign
negates it as an `unsigned long`. -/
def strtoul (nptr : String) : Nat :=
  let s := nptr.toList.dropWhile isspace
  let neg := s.head? = some (Char.ofNat 45)
  let s := if s.head? = some (Char.ofNat 45) ∨ s.head? = some (Char.ofNat 43) then s.tail else s
  let v := (s.takeWhile isdigit).foldl (fun acc d => acc * 10 + (d.toNat - 48)) 0
  if v > ULONG_MAX then ULONG_MAX
  else if neg then (2 ^ 64 - v) % 2 ^ 64
  else v

/-- The C `strncmp(a, b, n) == 0` on NUL-terminated strings. -/
def strncmp_eq : List Char → List Char → Nat → Bool
  | _, _, 0 => true
  | [], [], _ + 1 => true
  | x :: xs, y :: ys, n + 1 => x == y && strncmp_eq xs ys n
  | _, _, _ + 1 => false

/-- Conversion of a `uint64_t` to `int` (32 bits, two's complement). -/
def to_int (t : Nat) : Int :=
  if t % 2 ^ 32 < 2 ^ 31 then (t % 2 ^ 32 : Nat) else (t % 2 ^ 32 : Nat) - 2 ^ 32

/-! ## The udev backend -/

namespace udev

/-- Modelled from the spec: the macro `DRM_PRIMARY_MINOR_NAME` of `xf86drm.h`, the name
stem of primary DRM nodes (`/dev/dri/card0`, `/dev/dri/card1`). -/
def DRM_PRIMARY_MINOR_NAME : String := "card"

/-- The constant `WAIT_GPU_TIMEOUT`, in milliseconds. -/
def WAIT_GPU_TIMEOUT : Nat := 10000

/-- What the code reads of a `struct udev_device`: sysname, device node, action, device
number, the property list and the sysattr list of the `pci` parent, if there is one. -/
structure udev_device where
  sysname : String
  devnode : Option String
  action : Option String
  devnum : Nat
  properties : List (String × String)
  pci : Option (List (String × String))
deriving DecidableEq, Repr

/-- The call `udev_device_get_property_value(udev_dev, key)`. -/
def udev_device_get_property_value (udev_dev : udev_device) (key : String) : Option String :=
  udev_dev.properties.lookup key

/-- The call `udev_device_get_sysattr_value(pci, sysattr)` on the attribute list of a
parent. -/
def udev_device_get_sysattr_value (pci : List (String × String)) (sysattr : String) :
    Option String :=
  pci.lookup sysattr

/-- The function `is_drm_card`: the sysname starts with `DRM_PRIMARY_MINOR_NAME` and every later
character is a decimal digit. -/
def is_drm_card (sysname : String) : Bool :=
  let pfx := DRM_PRIMARY_MINOR_NAME.toList
  if !strncmp_eq sysname.toList pfx pfx.length then false
  else (sysname.toList.drop pfx.length).all fun c => !(c < '0' || c > '9')

/-- The function `read_udev_change_event`: fills `event` from the `HOTPLUG`, `CONNECTOR`, `PROPERTY`
and `LEASE` properties. -/
def read_udev_change_event (event : wlr_device_change_event) (udev_dev : udev_device) :
    wlr_device_change_event :=
  if udev_device_get_property_value udev_dev "HOTPLUG" = some "1" then
    let event := { event with type := .WLR_DEVICE_HOTPLUG }
    let event :=
      match udev_device_get_property_value udev_dev "CONNECTOR" with
      | some connector => { event with connector_id := strtoul connector % 2 ^ 32 }
      | none => event
    let event :=
      match udev_device_get_property_value udev_dev "PROPERTY" with
      | some prop => { event with prop_id := strtoul prop % 2 ^ 32 }
      | none => event
    event
  else if udev_device_get_property_value udev_dev "LEASE" = some "1" then
    { event with type := .WLR_DEVICE_LEASE }
  else event

/-- The `wl_list_for_each` loop of `dev_handle_event` over `session->devices`: the first
record whose device number is `devnum` gets the signal, then the loop is left. -/
def handle_devices (action : String) (udev_dev : udev_device) (devnum : Nat) :
    List wlr_device → handle_outcome
  | [] => .returned 1 []
  | dev :: rest =>
    if dev.dev ≠ devnum then handle_devices action udev_dev devnum rest
    else if action = "change" then
      let event : wlr_device_change_event := ⟨.zero, 0, 0⟩
      let event := read_udev_change_event event udev_dev
      .returned 1 [⟨.device_change dev, .change_event event⟩]
    else if action = "remove" then
      .returned 1 [⟨.device_remove dev, .null⟩]
    else .aborted

/-- The function `dev_handle_event` of `udev.c`; the argument is what
`udev_monitor_receive_device` returned. -/
def dev_handle_event (session : wlr_session) (received : Option udev_device) :
    handle_outcome :=
  match received with
  | none => .returned 1 []
  | some udev_dev =>
    match is_drm_card udev_dev.sysname, udev_dev.action, udev_dev.devnode with
    | true, some action, some devnode =>
      let seat := (udev_device_get_property_value udev_dev "ID_SEAT").getD "seat0"
      if session.seat ≠ "" ∧ session.seat ≠ seat then .returned 1 []
      else if action = "add" then
        .returned 1 [⟨.session_add_drm_card, .add_event ⟨devnode⟩⟩]
      else if action = "change" ∨ action = "remove" then
        handle_devices action udev_dev udev_dev.devnum session.devices
      else .returned 1 []
    | _, _, _ => .returned 1 []

/-- One entry of a scan list of `enumerate_drm_cards`: its syspath, what
`udev_device_new_from_syspath` returns for it, and what `session_open_if_kms` returns
when it is asked to open that device. -/
structure udev_list_entry where
  name : String
  device : Option udev_device
  kms : Option wlr_device
deriving DecidableEq, Repr

/-- The `udev_list_entry_foreach` loop of `dev_find_gpus` (the running index `i` is
`count`). -/
def scan_loop (session : wlr_session) (ret_len : Nat) :
    List udev_list_entry → find_state → find_state
  | [], st => st
  | entry :: rest, st =>
    if st.count = ret_len then st
    else
      match entry.device with
      | none => scan_loop session ret_len rest st
      | some dev =>
        let seat := (udev_device_get_property_value dev "ID_SEAT").getD "seat0"
        if session.seat ≠ "" ∧ session.seat ≠ seat then scan_loop session ret_len rest st
        else
          let is_boot_vga : Bool :=
            match dev.pci with
            | some pci => decide (udev_device_get_sysattr_value pci "boot_vga" = some "1")
            | none => false
          let opens := st.opens ++ [dev.devnode]
          match entry.kms with
          | none => scan_loop session ret_len rest { st with opens := opens }
          | some wlr_dev =>
            let i := st.count
            let ret := store st.ret i (some wlr_dev)
            if is_boot_vga then
              let tmp := ret 0
              let ret := store ret 0 (ret i)
              let ret := store ret i tmp
              scan_loop session ret_len rest ⟨ret, i + 1, st.writes ++ [i, 0, i], opens⟩
            else
              scan_loop session ret_len rest ⟨ret, i + 1, st.writes ++ [i], opens⟩

/-- A `struct timespec` as filled by `clock_gettime`. -/
structure timespec where
  tv_sec : Nat
  tv_nsec : Nat
deriving DecidableEq, Repr

/-- The function `get_current_time_ms`, on the value `clock_gettime(CLOCK_MONOTONIC, &ts)` stored. -/
def get_current_time_ms (ts : timespec) : Nat :=
  ((ts.tv_sec % 2 ^ 64 * 1000) % 2 ^ 64 + ts.tv_nsec % 2 ^ 64 / 1000000) % 2 ^ 64

/-- One turn of the event loop during the bounded wait: the value
`wl_event_loop_dispatch` returns, whether `find_gpus_handle_add` ran during the call, and
the clock value read afterwards. -/
structure dispatch_step where
  ret : Int
  add_fired : Bool
  ts : timespec
deriving DecidableEq, Repr

/-- How the bounded wait ends; `pending` is a wait whose dispatch call has not returned
within the listed turns. -/
inductive wait_exit where
  | added
  | timed_out
  | dispatch_failed
  | pending
deriving DecidableEq, Repr

/-- The `while (!handler.added)` loop of `dev_find_gpus`, run on the listed turns of the
event loop. It returns the timeouts handed to `wl_event_loop_dispatch`, in order, and how
the loop was left. -/
def wait_loop (started_at : Nat) : Bool → Nat → List dispatch_step → List Int × wait_exit
  | true, _, _ => ([], .added)
  | false, timeout, [] => ([to_int timeout], .pending)
  | false, timeout, step :: rest =>
    if step.ret < 0 then ([to_int timeout], .dispatch_failed)
    else
      let now := get_current_time_ms step.ts
      if now ≥ (started_at + WAIT_GPU_TIMEOUT) % 2 ^ 64 then ([to_int timeout], .timed_out)
      else
        let timeout' := ((started_at + WAIT_GPU_TIMEOUT) % 2 ^ 64 + 2 ^ 64 - now) % 2 ^ 64
        let r := wait_loop started_at step.add_fired timeout' rest
        (to_int timeout :: r.1, r.2)

/-- Acquire and release operations of `dev_find_gpus`: a scan handle returned by
`enumerate_drm_cards` (numbered by call), its `udev_enumerate_unref`, and the
`wl_signal_add` and `wl_list_remove` of the `add_drm_card` listener. -/
inductive resource_op where
  | enumerate_new (handle : Nat)
  | enumerate_unref (handle : Nat)
  | listener_add
  | listener_remove
deriving DecidableEq, Repr

/-- The surroundings of one call of `dev_find_gpus`: what the first and the second call
of `enumerate_drm_cards` return (`none` is `NULL`), the clock value at the start of the
wait and the turns of the event loop. -/
structure find_env where
  scan1 : Option (List udev_list_entry)
  start : timespec
  steps : List dispatch_step
  scan2 : Option (List udev_list_entry)
deriving DecidableEq, Repr

/-- What a call of `dev_find_gpus` did: the value returned, the output array with the
running index, the dispatch timeouts and the resource operations. -/
structure find_result where
  retval : Int
  state : find_state
  timeouts : List Int
  ops : List resource_op

/-- The function `dev_find_gpus` of `udev.c`; `none` when the bounded wait is still pending at the end of the
listed turns. -/
def dev_find_gpus (session : wlr_session) (env : find_env) (ret_len : Nat)
    (ret : Nat → Option wlr_device) : Option find_result :=
  let st0 : find_state := ⟨ret, 0, [], []⟩
  match env.scan1 with
  | none => some ⟨-1, st0, [], []⟩
  | some en =>
    if en = [] then
      let started_at := get_current_time_ms env.start
      let w := wait_loop started_at false WAIT_GPU_TIMEOUT env.steps
      let ops := [.enumerate_new 1, .enumerate_unref 1, .listener_add]
      match w.2 with
      | .pending => none
      | .dispatch_failed => some ⟨-1, st0, w.1, ops ++ [.enumerate_unref 1]⟩
      | _ =>
        match env.scan2 with
        | none => some ⟨-1, st0, w.1, ops ++ [.listener_remove]⟩
        | some en =>
          let st := scan_loop session ret_len en st0
          some ⟨st.count, st, w.1,
            ops ++ [.listener_remove, .enumerate_new 2, .enumerate_unref 2]⟩
    else
      let st := scan_loop session ret_len en st0
      some ⟨st.count, st, [], [.enumerate_new 1, .enumerate_unref 1]⟩

end udev

/-! ## The demi backend -/

namespace demi

/-- Values of `enum demi_class`: the DRM class and every other enumerator. -/
inductive demi_class where
  | DEMI_CLASS_DRM
  | other (code : Nat)
deriving DecidableEq, Repr

/-- Values of `enum demi_action`: the three actions the code names and every other
enumerator. -/
inductive demi_action where
  | DEMI_ACTION_ATTACH
  | DEMI_ACTION_CHANGE
  | DEMI_ACTION_DETACH
  | other (code : Nat)
deriving DecidableEq, Repr

/-- What the getters of a `struct demi_device` return; `none` is the return value `-1`
of the getter. -/
structure demi_device where
  dev_class : Option demi_class
  devnode : Option String
  action : Option demi_action
  seat : Option String
  devnum : Option Nat
  type : Option Nat
deriving DecidableEq, Repr

/-- The `wl_list_for_each` loop of `dev_handle_event` over `session->devices`. -/
def handle_devices (action : demi_action) (devnum : Nat) : List wlr_device → handle_outcome
  | [] => .returned 1 []
  | dev :: rest =>
    if dev.dev ≠ devnum then handle_devices action devnum rest
    else if action = .DEMI_ACTION_CHANGE then
      .returned 1 [⟨.device_change dev, .null⟩]
    else if action = .DEMI_ACTION_DETACH then
      .returned 1 [⟨.device_remove dev, .null⟩]
    else .aborted

/-- The function `dev_handle_event` of `demi.c`; the argument is the device `demi_monitor_recv_device` filled in,
`none` when it returned `-1`. -/
def dev_handle_event (session : wlr_session) (received : Option demi_device) :
    handle_outcome :=
  match received with
  | none => .returned 1 []
  | some demi_dev =>
    match demi_dev.dev_class with
    | none => .returned 1 []
    | some cls =>
      if cls ≠ .DEMI_CLASS_DRM then .returned 1 []
      else
        match demi_dev.devnode with
        | none => .returned 1 []
        | some devnode =>
          match demi_dev.action with
          | none => .returned 1 []
          | some action =>
            let seat := demi_dev.seat.getD "seat0"
            if session.seat ≠ "" ∧ session.seat ≠ seat then .returned 1 []
            else if action = .DEMI_ACTION_ATTACH then
              .returned 1 [⟨.session_add_drm_card, .add_event ⟨devnode⟩⟩]
            else if action = .DEMI_ACTION_CHANGE ∨ action = .DEMI_ACTION_DETACH then
              match demi_dev.devnum with
              | none => .returned 1 []
              | some devnum => handle_devices action devnum session.devices
            else .returned 1 []

/-- One device handed to the scan callback, with what `session_open_if_kms` returns when
it is asked to open that device. -/
structure scan_entry where
  dev : demi_device
  kms : Option wlr_device
deriving DecidableEq, Repr

/-- What one call of `find_gpus_callback` did: its return value, the context afterwards
and the number of `demi_device_finish(dev)` calls it made. -/
structure callback_result where
  retval : Int
  ctx : find_state
  finished : Nat

/-- The function `find_gpus_callback`, with `ctx->max_len` and `ctx->session` as arguments and
`ctx->devices`, `ctx->count` in `ctx`. The constant `DEMI_TYPE_BOOT_VGA` of `demi.h` is an
argument. -/
def find_gpus_callback (DEMI_TYPE_BOOT_VGA : Nat) (session : wlr_session) (max_len : Nat)
    (entry : scan_entry) (ctx : find_state) : callback_result :=
  match entry.dev.dev_class with
  | none => ⟨0, ctx, 1⟩
  | some cls =>
    if cls ≠ .DEMI_CLASS_DRM then ⟨0, ctx, 1⟩
    else
      match entry.dev.devnode with
      | none => ⟨0, ctx, 1⟩
      | some devnode =>
        let seat := entry.dev.seat.getD "seat0"
        if session.seat ≠ "" ∧ session.seat ≠ seat then ⟨0, ctx, 1⟩
        else
          let is_boot_vga : Bool :=
            match entry.dev.type with
            | some type => decide (type &&& DEMI_TYPE_BOOT_VGA ≠ 0)
            | none => false
          let opens := ctx.opens ++ [some devnode]
          match entry.kms with
          | none => ⟨0, { ctx with opens := opens }, 1⟩
          | some wlr_dev =>
            let devices := store ctx.ret ctx.count (some wlr_dev)
            let devices :=
              if is_boot_vga then
                let tmp := devices 0
                let devices := store devices 0 (devices ctx.count)
                store devices ctx.count tmp
              else devices
            let writes :=
              if is_boot_vga then ctx.writes ++ [ctx.count, 0, ctx.count]
              else ctx.writes ++ [ctx.count]
            let ctx : find_state := ⟨devices, ctx.count + 1, writes, opens⟩
            if ctx.count = max_len then ⟨-1, ctx, 0⟩
            else ⟨0, ctx, 1⟩

/-- The scan `demi_enumerate_scan_system(enu, cb, ptr)` of libdemi as `dev_find_gpus`
relies on it: the callback is run on the devices in scan order, a callback result of `-1`
ends the scan with `-1`, and a scan that ran to the end returns `-1` when the library
itself failed (`scan_error`) and `0` otherwise. The last component counts, per device
visited, the `demi_device_finish` calls of the callback. -/
def demi_enumerate_scan_system (cb : scan_entry → find_state → callback_result)
    (scan_error : Bool) : List scan_entry → find_state → Int × find_state × List Nat
  | [], ctx => (if scan_error then -1 else 0, ctx, [])
  | entry :: rest, ctx =>
    let r := cb entry ctx
    if r.retval = -1 then (-1, r.ctx, [r.finished])
    else
      let s := demi_enumerate_scan_system cb scan_error rest r.ctx
      (s.1, s.2.1, r.finished :: s.2.2)

/-- The surroundings of one call of `dev_find_gpus`: whether `demi_enumerate_init`
succeeds, the devices the scan visits and whether the scan itself fails. -/
structure find_env where
  init_ok : Bool
  entries : List scan_entry
  scan_error : Bool
deriving DecidableEq, Repr

/-- What a call of `dev_find_gpus` did: the value returned, the context and the
`demi_device_finish` counts per device visited. -/
structure find_result where
  retval : Int
  ctx : find_state
  finished : List Nat

/-- The function `dev_find_gpus` of `demi.c`. -/
def dev_find_gpus (DEMI_TYPE_BOOT_VGA : Nat) (session : wlr_session) (env : find_env)
    (ret_len : Nat) (ret : Nat → Option wlr_device) : find_result :=
  let ctx : find_state := ⟨ret, 0, [], []⟩
  if !env.init_ok then ⟨-1, ctx, []⟩
  else
    let s := demi_enumerate_scan_system
      (find_gpus_callback DEMI_TYPE_BOOT_VGA session ret_len) env.scan_error env.entries ctx
    let retval := s.1
    let ctx := s.2.1
    if retval = -1 ∧ ctx.count ≠ ret_len then ⟨-1, ctx, s.2.2⟩
    else ⟨ctx.count, ctx, s.2.2⟩

end demi

/-! ## Auxiliary definitions for the statements -/

/-- The seat test of the specification on a scan entry of the udev backend; an entry
without a device object has no seat to test. -/
def udev_entry_on_seat (session_seat : String) (entry : udev.udev_list_entry) : Bool :=
  match entry.device with
  | some dev => seat_filter_spec session_seat (udev.udev_device_get_property_value dev "ID_SEAT")
  | none => true

/-- The body of the scan loop of `udev.dev_find_gpus` below the capacity test, for an
entry with a device object that is on the seat. -/
def udev_accept (dev : udev.udev_device) (kms : Option wlr_device) (st : find_state) :
    find_state :=
  match kms with
  | none => { st with opens := st.opens ++ [dev.devnode] }
  | some wlr_dev =>
    if (match dev.pci with
        | some pci => decide (udev.udev_device_get_sysattr_value pci "boot_vga" = some "1")
        | none => false) = true then
      ⟨store (store (store st.ret st.count (some wlr_dev)) 0
          (store st.ret st.count (some wlr_dev) st.count)) st.count
          (store st.ret st.count (some wlr_dev) 0),
        st.count + 1, st.writes ++ [st.count, 0, st.count], st.opens ++ [dev.devnode]⟩
    else
      ⟨store st.ret st.count (some wlr_dev), st.count + 1, st.writes ++ [st.count],
        st.opens ++ [dev.devnode]⟩

/-- One turn of the scan loop of `udev.dev_find_gpus` below the capacity test. -/
def udev_scan_step (session : wlr_session) (entry : udev.udev_list_entry) (st : find_state) :
    find_state :=
  match entry.device with
  | none => st
  | some dev =>
    if seat_filter_spec session.seat (udev.udev_device_get_property_value dev "ID_SEAT") = true
    then udev_accept dev entry.kms st
    else st

/-- A scan entry of the udev backend is eligible: its device object can be created, it
passes the seat filter and `session_open_if_kms` returns a device for it. -/
def udev_eligible (session_seat : String) (entry : udev.udev_list_entry) : Bool :=
  match entry.device with
  | some dev =>
    seat_filter_spec session_seat (udev.udev_device_get_property_value dev "ID_SEAT") &&
      entry.kms.isSome
  | none => false

/-- A scan entry of the udev backend is one `session_open_if_kms` is asked to open when
the loop reaches it: its device object can be created and it passes the seat filter. -/
def udev_on_seat (session_seat : String) (entry : udev.udev_list_entry) : Bool :=
  match entry.device with
  | some dev => seat_filter_spec session_seat (udev.udev_device_get_property_value dev "ID_SEAT")
  | none => false

/-- The device node of the device object of a scan entry. -/
def udev_entry_devnode (entry : udev.udev_list_entry) : Option String :=
  match entry.device with
  | some dev => dev.devnode
  | none => none

/-- A scan entry of the udev backend is boot-VGA-flagged: its device has a `pci` parent
whose `boot_vga` attribute is `1`. -/
def udev_boot_vga (entry : udev.udev_list_entry) : Bool :=
  match entry.device with
  | some dev =>
    match dev.pci with
    | some pci => decide (udev.udev_device_get_sysattr_value pci "boot_vga" = some "1")
    | none => false
  | none => false

/-- A candidate of the demi backend is eligible: its class is DRM, it has a device node,
it passes the seat filter and `session_open_if_kms` returns a device for it. -/
def demi_eligible (session_seat : String) (entry : demi.scan_entry) : Bool :=
  decide (entry.dev.dev_class = some .DEMI_CLASS_DRM) && entry.dev.devnode.isSome &&
    seat_filter_spec session_seat entry.dev.seat && entry.kms.isSome

/-- A candidate of the demi backend is boot-VGA-flagged: its type is available and has
the bit `DEMI_TYPE_BOOT_VGA`. -/
def demi_boot_vga (DEMI_TYPE_BOOT_VGA : Nat) (entry : demi.scan_entry) : Bool :=
  match entry.dev.type with
  | some type => decide (type &&& DEMI_TYPE_BOOT_VGA ≠ 0)
  | none => false

/-! ## The two cards of the scenario of the specification -/

/-- The scan entry of `/dev/dri/card0`, not the boot VGA device, in the udev backend. -/
def udev_card0 : udev.udev_list_entry :=
  ⟨"/sys/devices/pci0000:00/0000:00:02.0/drm/card0",
    some ⟨"card0", some "/dev/dri/card0", none, 57856, [], some [("boot_vga", "0")]⟩,
    some ⟨7, 57856⟩⟩

/-- The scan entry of `/dev/dri/card1`, the boot VGA device, in the udev backend. -/
def udev_card1 : udev.udev_list_entry :=
  ⟨"/sys/devices/pci0000:00/0000:01:00.0/drm/card1",
    some ⟨"card1", some "/dev/dri/card1", none, 57857, [], some [("boot_vga", "1")]⟩,
    some ⟨8, 57857⟩⟩

/-- The candidate `/dev/dri/card0`, not the boot VGA device, in the demi backend. -/
def demi_card0 : demi.scan_entry :=
  ⟨⟨some .DEMI_CLASS_DRM, some "/dev/dri/card0", none, none, some 57856, some 0⟩,
    some ⟨7, 57856⟩⟩

/-- The candidate `/dev/dri/card1`, the boot VGA device for the flag value 1, in the demi
backend. -/
def demi_card1 : demi.scan_entry :=
  ⟨⟨some .DEMI_CLASS_DRM, some "/dev/dri/card1", none, none, some 57857, some 1⟩,
    some ⟨8, 57857⟩⟩

/-! ## Properties of the hotplug event translator -/

theorem seat_filter_spec_iff (a : String) (s : Option String) :
    seat_filter_spec a s = true ↔ ¬ (a ≠ "" ∧ a ≠ s.getD "seat0") := by
  simp only [seat_filter_spec, Bool.or_eq_true, decide_eq_true_eq]
  tauto

theorem seat_filter_spec_empty (s : Option String) : seat_filter_spec "" s = true := by
  simp [seat_filter_spec]

theorem udev_handle_devices_not_aborted (action : String) (udev_dev : udev.udev_device)
    (devnum : Nat) (h : action = "change" ∨ action = "remove") (devices : List wlr_device) :
    udev.handle_devices action udev_dev devnum devices ≠ .aborted := by
  induction devices with
  | nil => simp [udev.handle_devices]
  | cons d rest ih =>
    unfold udev.handle_devices
    split
    · exact ih
    · rcases h with h | h <;> subst h <;> simp

theorem demi_handle_devices_not_aborted (action : demi.demi_action)
    (devnum : Nat) (h : action = .DEMI_ACTION_CHANGE ∨ action = .DEMI_ACTION_DETACH)
    (devices : List wlr_device) :
    demi.handle_devices action devnum devices ≠ .aborted := by
  induction devices with
  | nil => simp [demi.handle_devices]
  | cons d rest ih =>
    unfold demi.handle_devices
    split
    · exact ih
    · rcases h with h | h <;> subst h <;> simp

theorem udev_dev_handle_event_not_aborted (session : wlr_session)
    (received : Option udev.udev_device) :
    udev.dev_handle_event session received ≠ .aborted := by
  unfold udev.dev_handle_event
  split
  · simp
  · split
    · dsimp only
      split
      · simp
      · split
        · simp
        · split
          · next h => exact udev_handle_devices_not_aborted _ _ _ h _
          · simp
    · simp

theorem demi_dev_handle_event_not_aborted (session : wlr_session)
    (received : Option demi.demi_device) :
    demi.dev_handle_event session received ≠ .aborted := by
  unfold demi.dev_handle_event
  split
  · simp
  · split
    · simp
    · split
      · simp
      · split
        · simp
        · split
          · simp
          · dsimp only
            split
            · simp
            · split
              · simp
              · split
                · next h =>
                  split
                  · simp
                  · exact demi_handle_devices_not_aborted _ _ h _
                · simp

theorem strncmp_eq_card (l : List Char) :
    strncmp_eq l udev.DRM_PRIMARY_MINOR_NAME.toList udev.DRM_PRIMARY_MINOR_NAME.toList.length = true ↔
      ∃ rest : List Char, l = "card".toList ++ rest := by
  have hp : udev.DRM_PRIMARY_MINOR_NAME.toList = ['c', 'a', 'r', 'd'] := rfl
  have hq : "card".toList = ['c', 'a', 'r', 'd'] := rfl
  rw [hp, hq]
  rcases l with _ | ⟨a, _ | ⟨b, _ | ⟨c, _ | ⟨d, rest⟩⟩⟩⟩ <;>
    simp [strncmp_eq]

theorem is_drm_card_iff (sysname : String) :
    udev.is_drm_card sysname = true ↔
      ∃ digits : List Char, sysname.toList = "card".toList ++ digits ∧
        ∀ c ∈ digits, '0' ≤ c ∧ c ≤ '9' := by
  unfold udev.is_drm_card
  constructor
  · intro h
    dsimp only at h
    cases hs : strncmp_eq sysname.toList udev.DRM_PRIMARY_MINOR_NAME.toList
        udev.DRM_PRIMARY_MINOR_NAME.toList.length
    · rw [hs] at h
      simp at h
    · simp only [hs, Bool.not_true, Bool.false_eq_true, ite_false] at h
      obtain ⟨rest, hrest⟩ := (strncmp_eq_card _).1 hs
      refine ⟨rest, hrest, ?_⟩
      have hlen : udev.DRM_PRIMARY_MINOR_NAME.toList.length = "card".toList.length := rfl
      rw [hrest, hlen, List.drop_left] at h
      intro c hc
      have := (List.all_eq_true.1 h) c hc
      simpa [not_lt] using this
  · rintro ⟨digits, hd, hall⟩
    dsimp only
    have hs := (strncmp_eq_card sysname.toList).2 ⟨digits, hd⟩
    rw [hs]
    have hlen : udev.DRM_PRIMARY_MINOR_NAME.toList.length = "card".toList.length := rfl
    simp only [Bool.not_true, Bool.false_eq_true, ite_false]
    rw [hd, hlen, List.drop_left]
    apply List.all_eq_true.2
    intro c hc
    simpa [not_lt] using hall c hc

/-- C5: a raw event whose device class is not DRM makes `dev_handle_event` emit no signal
and return 1. In the udev backend the class test is `is_drm_card`, which holds exactly of
the names made of `card` followed by decimal digits only; in the demi backend it is the
comparison of the class with `DEMI_CLASS_DRM`. -/
theorem non_drm_event_is_dropped (session : wlr_session) :
    (∀ udev_dev : udev.udev_device, udev.is_drm_card udev_dev.sysname = false →
      udev.dev_handle_event session (some udev_dev) = .returned 1 []) ∧
    (∀ demi_dev : demi.demi_device, demi_dev.dev_class ≠ some .DEMI_CLASS_DRM →
      demi.dev_handle_event session (some demi_dev) = .returned 1 []) ∧
    (∀ sysname : String, udev.is_drm_card sysname = true ↔
      ∃ digits : List Char, sysname.toList = "card".toList ++ digits ∧
        ∀ c ∈ digits, '0' ≤ c ∧ c ≤ '9') := by
  refine ⟨?_, ?_, is_drm_card_iff⟩
  · intro udev_dev h
    simp [udev.dev_handle_event, h]
  · intro demi_dev h
    unfold demi.dev_handle_event
    dsimp only
    split
    · rfl
    · next cls hcls =>
      have : cls ≠ .DEMI_CLASS_DRM := fun hc => h (by rw [hcls, hc])
      simp [this]

/-- A connector name (not a card) on seat `seat1` and an input-class device: both are
dropped by a session on any seat. -/
theorem non_drm_event_is_dropped_witness :
    udev.dev_handle_event ⟨"seat0", [⟨7, 57856⟩]⟩
        (some ⟨"card0-HDMI-A-1", some "/dev/dri/card0", some "change", 57856, [], none⟩)
      = .returned 1 [] ∧
    demi.dev_handle_event ⟨"seat0", [⟨7, 57856⟩]⟩
        (some ⟨some (.other 2), some "/dev/input/event0", some .DEMI_ACTION_CHANGE, none,
          some 57856, none⟩)
      = .returned 1 [] :=
  ⟨(non_drm_event_is_dropped _).1 _ (by decide), (non_drm_event_is_dropped _).2.1 _ (by decide)⟩

/-- C8, as amended: a DRM event with a device node and an action that passes the seat
filter and whose action is none of attach, change, detach (udev: `add`, `change`,
`remove`) makes `dev_handle_event` return 1 without emitting a signal; and no event at
all makes `dev_handle_event` reach `abort()`. -/
theorem other_action_is_ignored (session : wlr_session) :
    (∀ (udev_dev : udev.udev_device) (action devnode : String),
      udev.is_drm_card udev_dev.sysname = true → udev_dev.action = some action →
      udev_dev.devnode = some devnode →
      seat_filter_spec session.seat
        (udev.udev_device_get_property_value udev_dev "ID_SEAT") = true →
      action ≠ "add" → action ≠ "change" → action ≠ "remove" →
      udev.dev_handle_event session (some udev_dev) = .returned 1 []) ∧
    (∀ (demi_dev : demi.demi_device) (action : demi.demi_action) (devnode : String),
      demi_dev.dev_class = some .DEMI_CLASS_DRM → demi_dev.action = some action →
      demi_dev.devnode = some devnode →
      seat_filter_spec session.seat demi_dev.seat = true →
      action ≠ .DEMI_ACTION_ATTACH → action ≠ .DEMI_ACTION_CHANGE →
      action ≠ .DEMI_ACTION_DETACH →
      demi.dev_handle_event session (some demi_dev) = .returned 1 []) ∧
    (∀ received, udev.dev_handle_event session received ≠ .aborted) ∧
    (∀ received, demi.dev_handle_event session received ≠ .aborted) := by
  refine ⟨?_, ?_, udev_dev_handle_event_not_aborted session,
    demi_dev_handle_event_not_aborted session⟩
  · intro udev_dev action devnode hcard hact hnode hseat h1 h2 h3
    have hs := (seat_filter_spec_iff _ _).1 hseat
    simp only [udev.dev_handle_event, hcard, hact, hnode]
    rw [if_neg hs]
    simp [h1, h2, h3]
  · intro demi_dev action devnode hcls hact hnode hseat h1 h2 h3
    have hs := (seat_filter_spec_iff _ _).1 hseat
    simp only [demi.dev_handle_event, hcls, hact, hnode]
    rw [if_neg hs]
    simp [h1, h2, h3]

/-- A `bind` event (udev) and an event with a fourth action code (demi) for an open card:
both are ignored. -/
theorem other_action_is_ignored_witness :
    udev.dev_handle_event ⟨"seat0", [⟨7, 57856⟩]⟩
        (some ⟨"card0", some "/dev/dri/card0", some "bind", 57856, [], none⟩)
      = .returned 1 [] ∧
    demi.dev_handle_event ⟨"seat0", [⟨7, 57856⟩]⟩
        (some ⟨some .DEMI_CLASS_DRM, some "/dev/dri/card0", some (.other 0), none,
          some 57856, none⟩)
      = .returned 1 [] :=
  ⟨(other_action_is_ignored _).1 _ "bind" "/dev/dri/card0" (by decide) rfl rfl (by decide)
      (by decide) (by decide) (by decide),
   (other_action_is_ignored _).2.1 _ (.other 0) "/dev/dri/card0" rfl rfl rfl (by decide)
      (by decide) (by decide) (by decide)⟩

/-- C8 as stated fails: there is a udev DRM event with a device node and an action that
passes the seat filter, whose action is none of `add`, `change`, `remove`, and on which
`dev_handle_event` does not abort. -/
theorem other_action_does_not_abort :
    ¬ (∀ (session : wlr_session) (udev_dev : udev.udev_device) (action devnode : String),
      udev.is_drm_card udev_dev.sysname = true → udev_dev.action = some action →
      udev_dev.devnode = some devnode →
      seat_filter_spec session.seat
        (udev.udev_device_get_property_value udev_dev "ID_SEAT") = true →
      action ≠ "add" → action ≠ "change" → action ≠ "remove" →
      udev.dev_handle_event session (some udev_dev) = .aborted) := by
  intro h
  have := h ⟨"seat0", [⟨7, 57856⟩]⟩
    ⟨"card0", some "/dev/dri/card0", some "bind", 57856, [], none⟩ "bind" "/dev/dri/card0"
    (by decide) rfl rfl (by decide) (by decide) (by decide) (by decide)
  revert this
  decide

/-! ## The seat filter -/

theorem udev_handle_event_seat (session : wlr_session) (udev_dev : udev.udev_device) :
    udev.dev_handle_event session (some udev_dev) =
      if seat_filter_spec session.seat
          (udev.udev_device_get_property_value udev_dev "ID_SEAT") = true
      then udev.dev_handle_event { session with seat := "" } (some udev_dev)
      else .returned 1 [] := by
  by_cases hs : seat_filter_spec session.seat
      (udev.udev_device_get_property_value udev_dev "ID_SEAT") = true
  · rw [if_pos hs]
    have hs := (seat_filter_spec_iff _ _).1 hs
    unfold udev.dev_handle_event
    dsimp only
    split
    · rw [if_neg hs]
      simp
    · rfl
  · rw [if_neg hs]
    have hs := (not_congr (seat_filter_spec_iff _ _)).1 hs
    rw [not_not] at hs
    unfold udev.dev_handle_event
    dsimp only
    split
    · rw [if_pos hs]
    · rfl

theorem demi_handle_event_seat (session : wlr_session) (demi_dev : demi.demi_device) :
    demi.dev_handle_event session (some demi_dev) =
      if seat_filter_spec session.seat demi_dev.seat = true
      then demi.dev_handle_event { session with seat := "" } (some demi_dev)
      else .returned 1 [] := by
  by_cases hs : seat_filter_spec session.seat demi_dev.seat = true
  · rw [if_pos hs]
    have hs := (seat_filter_spec_iff _ _).1 hs
    simp only [demi.dev_handle_event, if_neg hs]
    simp
  · rw [if_neg hs]
    have hs := (not_congr (seat_filter_spec_iff _ _)).1 hs
    rw [not_not] at hs
    simp only [demi.dev_handle_event, if_pos hs]
    repeat' split
    all_goals rfl

theorem udev_scan_loop_cons (session : wlr_session) (ret_len : Nat)
    (entry : udev.udev_list_entry) (rest : List udev.udev_list_entry) (st : find_state) :
    udev.scan_loop session ret_len (entry :: rest) st =
      if st.count = ret_len then st
      else udev.scan_loop session ret_len rest (udev_scan_step session entry st) := by
  rw [udev.scan_loop]
  split
  · rfl
  · unfold udev_scan_step
    split
    · rfl
    · next dev hdev =>
      dsimp only
      by_cases hs : seat_filter_spec session.seat
          (udev.udev_device_get_property_value dev "ID_SEAT") = true
      · rw [if_pos hs]
        have hs := (seat_filter_spec_iff _ _).1 hs
        rw [if_neg hs]
        unfold udev_accept
        split
        · rfl
        · split
          · rfl
          · rfl
      · rw [if_neg hs]
        have hs := (not_congr (seat_filter_spec_iff _ _)).1 hs
        rw [not_not] at hs
        rw [if_pos hs]

theorem udev_scan_step_seat (session : wlr_session) (entry : udev.udev_list_entry)
    (st : find_state) :
    udev_scan_step session entry st =
      if udev_entry_on_seat session.seat entry = true
      then udev_scan_step { session with seat := "" } entry st
      else st := by
  unfold udev_scan_step udev_entry_on_seat
  cases entry.device with
  | none => simp
  | some dev => simp only [seat_filter_spec_empty, if_true]

theorem udev_scan_loop_seat (session : wlr_session) (ret_len : Nat)
    (scan : List udev.udev_list_entry) (st : find_state) :
    udev.scan_loop session ret_len scan st =
      udev.scan_loop { session with seat := "" } ret_len
        (scan.filter (udev_entry_on_seat session.seat)) st := by
  induction scan generalizing st with
  | nil => rfl
  | cons entry rest ih =>
    rw [udev_scan_loop_cons, udev_scan_step_seat]
    by_cases hs : udev_entry_on_seat session.seat entry = true
    · rw [List.filter_cons_of_pos hs, udev_scan_loop_cons, if_pos hs, ih]
    · rw [List.filter_cons_of_neg hs, if_neg hs, ih]
      split
      · next h =>
        cases hf : List.filter (udev_entry_on_seat session.seat) rest with
        | nil => rfl
        | cons e r => rw [udev_scan_loop_cons, if_pos h]
      · rfl

theorem demi_callback_seat (mask : Nat) (session : wlr_session) (max_len : Nat)
    (entry : demi.scan_entry) (ctx : find_state) :
    demi.find_gpus_callback mask session max_len entry ctx =
      if seat_filter_spec session.seat entry.dev.seat = true
      then demi.find_gpus_callback mask { session with seat := "" } max_len entry ctx
      else ⟨0, ctx, 1⟩ := by
  by_cases hs : seat_filter_spec session.seat entry.dev.seat = true
  · rw [if_pos hs]
    have hs := (seat_filter_spec_iff _ _).1 hs
    simp only [demi.find_gpus_callback, if_neg hs]
    simp
  · rw [if_neg hs]
    have hs := (not_congr (seat_filter_spec_iff _ _)).1 hs
    rw [not_not] at hs
    simp only [demi.find_gpus_callback, if_pos hs]
    repeat' split
    all_goals rfl

/-- C4: the seat filter is one predicate on all four paths. With `seat_filter_spec` the
predicate of the specification (session seat empty, or equal to the seat identifier, an
absent identifier counting as `seat0`): `dev_handle_event` of either backend does on an
event that passes what it does with the filter switched off, and emits nothing and
returns 1 on an event that does not pass; the scan loop of `udev.dev_find_gpus` does what
it does with the filter switched off on the scan list without the entries that do not
pass; `demi.find_gpus_callback` does on a candidate that passes what it does with the
filter switched off and skips a candidate that does not pass. In particular a DRM event
whose seat identifier differs from a non-empty session seat emits no signal. -/
theorem seat_filter_same_on_all_paths (session : wlr_session) :
    (∀ udev_dev : udev.udev_device,
      udev.dev_handle_event session (some udev_dev) =
        if seat_filter_spec session.seat
            (udev.udev_device_get_property_value udev_dev "ID_SEAT") = true
        then udev.dev_handle_event { session with seat := "" } (some udev_dev)
        else .returned 1 []) ∧
    (∀ demi_dev : demi.demi_device,
      demi.dev_handle_event session (some demi_dev) =
        if seat_filter_spec session.seat demi_dev.seat = true
        then demi.dev_handle_event { session with seat := "" } (some demi_dev)
        else .returned 1 []) ∧
    (∀ (ret_len : Nat) (scan : List udev.udev_list_entry) (st : find_state),
      udev.scan_loop session ret_len scan st =
        udev.scan_loop { session with seat := "" } ret_len
          (scan.filter (udev_entry_on_seat session.seat)) st) ∧
    (∀ (mask max_len : Nat) (entry : demi.scan_entry) (ctx : find_state),
      demi.find_gpus_callback mask session max_len entry ctx =
        if seat_filter_spec session.seat entry.dev.seat = true
        then demi.find_gpus_callback mask { session with seat := "" } max_len entry ctx
        else ⟨0, ctx, 1⟩) ∧
    (∀ (udev_dev : udev.udev_device) (s : String), session.seat ≠ "" →
      udev.udev_device_get_property_value udev_dev "ID_SEAT" = some s → s ≠ session.seat →
      udev.dev_handle_event session (some udev_dev) = .returned 1 []) ∧
    (∀ (demi_dev : demi.demi_device) (s : String), session.seat ≠ "" →
      demi_dev.seat = some s → s ≠ session.seat →
      demi.dev_handle_event session (some demi_dev) = .returned 1 []) := by
  refine ⟨udev_handle_event_seat session, demi_handle_event_seat session,
    udev_scan_loop_seat session, fun mask max_len => demi_callback_seat mask session max_len,
    ?_, ?_⟩
  · intro udev_dev s h1 h2 h3
    rw [udev_handle_event_seat, if_neg]
    rw [seat_filter_spec_iff, h2]
    simpa using ⟨h1, Ne.symm h3⟩
  · intro demi_dev s h1 h2 h3
    rw [demi_handle_event_seat, if_neg]
    rw [seat_filter_spec_iff, h2]
    simpa using ⟨h1, Ne.symm h3⟩

/-- An `add` event for a card of `seat1`, seen by a session on `seat0`: no signal, in
either backend. -/
theorem seat_filter_same_on_all_paths_witness :
    udev.dev_handle_event ⟨"seat0", []⟩
        (some ⟨"card1", some "/dev/dri/card1", some "add", 57857, [("ID_SEAT", "seat1")],
          none⟩)
      = .returned 1 [] ∧
    demi.dev_handle_event ⟨"seat0", []⟩
        (some ⟨some .DEMI_CLASS_DRM, some "/dev/dri/card1", some .DEMI_ACTION_ATTACH,
          some "seat1", some 57857, none⟩)
      = .returned 1 [] :=
  ⟨(seat_filter_same_on_all_paths _).2.2.2.2.1 _ "seat1" (by decide) rfl (by decide),
   (seat_filter_same_on_all_paths _).2.2.2.2.2 _ "seat1" (by decide) rfl (by decide)⟩

/-! ## Decimal strings -/

theorem digitChar_toNat (k : Nat) (h : k < 10) : (Nat.digitChar k).toNat = 48 + k := by
  interval_cases k <;> rfl

theorem isdigit_digitChar (k : Nat) (h : k < 10) : isdigit (Nat.digitChar k) = true := by
  interval_cases k <;> rfl

theorem toDigitsCore_isdigit (fuel n : Nat) (ds : List Char)
    (hds : ∀ c ∈ ds, isdigit c = true) :
    ∀ c ∈ Nat.toDigitsCore 10 fuel n ds, isdigit c = true := by
  induction fuel generalizing n ds with
  | zero => simpa [Nat.toDigitsCore] using hds
  | succ fuel ih =>
    have hd : isdigit (Nat.digitChar (n % 10)) = true :=
      isdigit_digitChar _ (Nat.mod_lt _ (by norm_num))
    have hcons : ∀ c ∈ Nat.digitChar (n % 10) :: ds, isdigit c = true := by
      intro c hc
      rcases List.mem_cons.1 hc with h | h
      · rw [h]; exact hd
      · exact hds c h
    rw [Nat.toDigitsCore]
    split
    · exact hcons
    · exact ih _ _ hcons

theorem toDigitsCore_value (fuel n : Nat) (ds : List Char) (h : n < fuel) :
    (Nat.toDigitsCore 10 fuel n ds).foldl (fun acc d => acc * 10 + (d.toNat - 48)) 0 =
      ds.foldl (fun acc d => acc * 10 + (d.toNat - 48)) n := by
  induction fuel generalizing n ds with
  | zero => omega
  | succ fuel ih =>
    have hd : (Nat.digitChar (n % 10)).toNat - 48 = n % 10 := by
      rw [digitChar_toNat _ (Nat.mod_lt _ (by norm_num))]; omega
    rw [Nat.toDigitsCore]
    split
    · next hz =>
      rw [List.foldl_cons, hd]
      congr 1
      omega
    · next hz =>
      rw [ih (n / 10) _ (by omega), List.foldl_cons, hd]
      congr 1
      omega

theorem strtoul_of_digits (nptr : String) (hne : nptr.toList ≠ [])
    (hall : ∀ c ∈ nptr.toList, isdigit c = true)
    (hv : nptr.toList.foldl (fun acc d => acc * 10 + (d.toNat - 48)) 0 ≤ ULONG_MAX) :
    strtoul nptr = nptr.toList.foldl (fun acc d => acc * 10 + (d.toNat - 48)) 0 := by
  unfold strtoul
  obtain ⟨c, rest, hl⟩ := List.exists_cons_of_ne_nil hne
  have hc : isdigit c = true := hall c (by rw [hl]; exact List.mem_cons_self _ _)
  have hcn : 48 ≤ c.toNat ∧ c.toNat ≤ 57 := by
    simpa [isdigit] using hc
  have hsp : isspace c = false := by
    simp only [isspace, Bool.or_eq_false_iff, decide_eq_false_iff_not, Bool.and_eq_false_iff]
    omega
  have h45 : c ≠ Char.ofNat 45 := by
    intro h; rw [h] at hcn; revert hcn; decide
  have h43 : c ≠ Char.ofNat 43 := by
    intro h; rw [h] at hcn; revert hcn; decide
  have hdrop : List.dropWhile isspace nptr.toList = nptr.toList := by
    rw [hl, List.dropWhile_cons_of_neg (by simp [hsp])]
  have htake : List.takeWhile isdigit nptr.toList = nptr.toList := by
    rw [List.takeWhile_eq_self_iff]
    exact hall
  have hhead : nptr.toList.head? = some c := by rw [hl]; rfl
  simp only [hdrop, hhead, Option.some.injEq, h45, h43, or_self, if_false, htake]
  rw [if_neg (by omega)]

theorem toDigitsCore_ne_nil (fuel n : Nat) (ds : List Char) (h : ds ≠ [] ∨ 0 < fuel) :
    Nat.toDigitsCore 10 fuel n ds ≠ [] := by
  induction fuel generalizing n ds with
  | zero =>
    rcases h with h | h
    · simpa [Nat.toDigitsCore] using h
    · omega
  | succ fuel ih =>
    rw [Nat.toDigitsCore]
    split
    · simp
    · exact ih _ _ (Or.inl (by simp))

theorem strtoul_repr (c : Nat) (h : c < 2 ^ 64) : strtoul (Nat.repr c) = c := by
  have hl : (Nat.repr c).toList = Nat.toDigitsCore 10 (c + 1) c [] := rfl
  have hval := toDigitsCore_value (c + 1) c [] (by omega)
  rw [List.foldl_nil] at hval
  have hne : (Nat.repr c).toList ≠ [] := by
    rw [hl]
    exact toDigitsCore_ne_nil _ _ _ (Or.inr (by omega))
  rw [strtoul_of_digits _ hne (by rw [hl]; exact toDigitsCore_isdigit _ _ _ (by simp))
    (by rw [hl, hval]; unfold ULONG_MAX; omega), hl, hval]

theorem udev_handle_devices_change (udev_dev : udev.udev_device) (devnum : Nat)
    (devices : List wlr_device) (dev : wlr_device)
    (h : devices.find? (fun d => decide (d.dev = devnum)) = some dev) :
    udev.handle_devices "change" udev_dev devnum devices =
      .returned 1 [⟨.device_change dev,
        .change_event (udev.read_udev_change_event ⟨.zero, 0, 0⟩ udev_dev)⟩] := by
  induction devices with
  | nil => simp at h
  | cons d rest ih =>
    rw [udev.handle_devices]
    by_cases hd : d.dev = devnum
    · rw [List.find?_cons_of_pos _ (by simpa using hd)] at h
      rw [if_neg (by simpa using hd), if_pos rfl]
      simp only [Option.some.injEq] at h
      rw [h]
    · rw [List.find?_cons_of_neg _ (by simpa using hd)] at h
      rw [if_pos hd]
      exact ih h

theorem read_hotplug_ids (udev_dev : udev.udev_device) (c p : Nat)
    (hhot : udev.udev_device_get_property_value udev_dev "HOTPLUG" = some "1")
    (hc : c < 2 ^ 32) (hp : p < 2 ^ 32)
    (hconn : udev.udev_device_get_property_value udev_dev "CONNECTOR" = some (Nat.repr c))
    (hprop : udev.udev_device_get_property_value udev_dev "PROPERTY" = some (Nat.repr p)) :
    udev.read_udev_change_event ⟨.zero, 0, 0⟩ udev_dev = ⟨.WLR_DEVICE_HOTPLUG, c, p⟩ := by
  unfold udev.read_udev_change_event
  rw [if_pos hhot, hconn, hprop]
  dsimp only
  rw [strtoul_repr c (by omega), strtoul_repr p (by omega), Nat.mod_eq_of_lt hc,
    Nat.mod_eq_of_lt hp]

/-- C6: in the udev backend, a `change` event of a DRM card that has a device node,
passes the seat filter, has the device number of an open device record (`dev` being the
first such record of the session) and is a hotplug event (`HOTPLUG` is `1`) carrying the
connector id `c` and the property id `p` as decimal strings of 32-bit values, makes
`dev_handle_event` return 1 after exactly one emission: the change signal of `dev`, with
the payload `read_udev_change_event` fills, whose `connector_id` is `c` and whose
`prop_id` is `p`. -/
theorem change_event_carries_hotplug_ids (session : wlr_session)
    (udev_dev : udev.udev_device) (devnode : String) (dev : wlr_device) (c p : Nat)
    (hcard : udev.is_drm_card udev_dev.sysname = true)
    (hact : udev_dev.action = some "change") (hnode : udev_dev.devnode = some devnode)
    (hseat : seat_filter_spec session.seat
      (udev.udev_device_get_property_value udev_dev "ID_SEAT") = true)
    (hdev : session.devices.find? (fun d => decide (d.dev = udev_dev.devnum)) = some dev)
    (hhot : udev.udev_device_get_property_value udev_dev "HOTPLUG" = some "1")
    (hc : c < 2 ^ 32) (hp : p < 2 ^ 32)
    (hconn : udev.udev_device_get_property_value udev_dev "CONNECTOR" = some (Nat.repr c))
    (hprop : udev.udev_device_get_property_value udev_dev "PROPERTY" = some (Nat.repr p)) :
    udev.dev_handle_event session (some udev_dev) =
      .returned 1 [⟨.device_change dev,
        .change_event (udev.read_udev_change_event ⟨.zero, 0, 0⟩ udev_dev)⟩] ∧
    udev.read_udev_change_event ⟨.zero, 0, 0⟩ udev_dev = ⟨.WLR_DEVICE_HOTPLUG, c, p⟩ := by
  refine ⟨?_, read_hotplug_ids udev_dev c p hhot hc hp hconn hprop⟩
  have hs := (seat_filter_spec_iff _ _).1 hseat
  simp only [udev.dev_handle_event, hcard, hact, hnode]
  rw [if_neg hs, if_neg (by decide), if_pos (Or.inl trivial)]
  exact udev_handle_devices_change udev_dev _ _ dev hdev

/-- The scenario of the specification: connector id 5 and property id 12 on the open card
`/dev/dri/card0`. -/
theorem change_event_carries_hotplug_ids_witness :
    udev.dev_handle_event ⟨"", [⟨7, 57856⟩]⟩
        (some ⟨"card0", some "/dev/dri/card0", some "change", 57856,
          [("HOTPLUG", "1"), ("CONNECTOR", "5"), ("PROPERTY", "12")], none⟩)
      = .returned 1 [⟨.device_change ⟨7, 57856⟩,
          .change_event (udev.read_udev_change_event ⟨.zero, 0, 0⟩
            ⟨"card0", some "/dev/dri/card0", some "change", 57856,
              [("HOTPLUG", "1"), ("CONNECTOR", "5"), ("PROPERTY", "12")], none⟩)⟩] ∧
    udev.read_udev_change_event ⟨.zero, 0, 0⟩
        ⟨"card0", some "/dev/dri/card0", some "change", 57856,
          [("HOTPLUG", "1"), ("CONNECTOR", "5"), ("PROPERTY", "12")], none⟩
      = ⟨.WLR_DEVICE_HOTPLUG, 5, 12⟩ :=
  change_event_carries_hotplug_ids ⟨"", [⟨7, 57856⟩]⟩
    ⟨"card0", some "/dev/dri/card0", some "change", 57856,
      [("HOTPLUG", "1"), ("CONNECTOR", "5"), ("PROPERTY", "12")], none⟩
    "/dev/dri/card0" ⟨7, 57856⟩ 5 12 (by decide) rfl rfl (by decide) (by decide) (by decide)
    (by decide) (by decide) (by decide) (by decide)

/-! ## Where the two backends part -/

/-- C7 fails on the code: for one and the same `change` event of the open card
`/dev/dri/card0` that carries no decodable data, `udev.dev_handle_event` emits the change
signal with an empty payload and `demi.dev_handle_event` emits it with no payload
(`NULL`). -/
theorem change_payload_differs_between_backends :
    udev.dev_handle_event ⟨"", [⟨7, 57856⟩]⟩
        (some ⟨"card0", some "/dev/dri/card0", some "change", 57856, [], none⟩)
      = .returned 1 [⟨.device_change ⟨7, 57856⟩, .change_event ⟨.zero, 0, 0⟩⟩] ∧
    demi.dev_handle_event ⟨"", [⟨7, 57856⟩]⟩
        (some ⟨some .DEMI_CLASS_DRM, some "/dev/dri/card0", some .DEMI_ACTION_CHANGE, none,
          some 57856, none⟩)
      = .returned 1 [⟨.device_change ⟨7, 57856⟩, .null⟩] ∧
    udev.dev_handle_event ⟨"", [⟨7, 57856⟩]⟩
        (some ⟨"card0", some "/dev/dri/card0", some "change", 57856, [], none⟩)
      ≠ demi.dev_handle_event ⟨"", [⟨7, 57856⟩]⟩
        (some ⟨some .DEMI_CLASS_DRM, some "/dev/dri/card0", some .DEMI_ACTION_CHANGE, none,
          some 57856, none⟩) := by
  refine ⟨by decide, by decide, by decide⟩

/-- C9 fails on the code: when the first scan is empty and `wl_event_loop_dispatch`
fails, `udev.dev_find_gpus` returns -1 after releasing the first scan handle twice and
without removing the `add_drm_card` listener; and when the count reaches `max_len`,
`demi.find_gpus_callback` returns -1 without a call of `demi_device_finish`. -/
theorem enumeration_release_defects (mask : Nat) :
    (udev.dev_find_gpus ⟨"", []⟩ ⟨some [], ⟨100, 0⟩, [⟨-1, false, ⟨100, 0⟩⟩], some []⟩ 4
        (fun _ => none)).map (fun r => (r.retval, r.timeouts, r.ops))
      = some (-1, [10000],
          [.enumerate_new 1, .enumerate_unref 1, .listener_add, .enumerate_unref 1]) ∧
    (demi.find_gpus_callback mask ⟨"", []⟩ 1
        ⟨⟨some .DEMI_CLASS_DRM, some "/dev/dri/card0", none, none, some 57856, none⟩,
          some ⟨7, 57856⟩⟩ ⟨fun _ => none, 0, [], []⟩).retval = -1 ∧
    (demi.find_gpus_callback mask ⟨"", []⟩ 1
        ⟨⟨some .DEMI_CLASS_DRM, some "/dev/dri/card0", none, none, some 57856, none⟩,
          some ⟨7, 57856⟩⟩ ⟨fun _ => none, 0, [], []⟩).finished = 0 := by
  exact ⟨by decide, rfl, rfl⟩

/-! ## The bounded wait -/

theorem to_int_of_small (t : Nat) (h : t ≤ 10000) : to_int t = (t : Int) := by
  unfold to_int
  have h1 : t % 2 ^ 32 = t := Nat.mod_eq_of_lt (by omega)
  rw [h1, if_pos (by omega)]

theorem wait_loop_added (started_at timeout : Nat) (steps : List udev.dispatch_step) :
    udev.wait_loop started_at true timeout steps = ([], .added) := by
  rw [udev.wait_loop]

theorem wait_loop_timeouts (started_at : Nat) (hno : started_at + 10000 < 2 ^ 64)
    (steps : List udev.dispatch_step)
    (hge : ∀ s ∈ steps, started_at ≤ udev.get_current_time_ms s.ts)
    (added : Bool) (timeout : Nat) :
    (added = false →
      (udev.wait_loop started_at added timeout steps).1.head? = some (to_int timeout)) ∧
    ∀ k, k + 1 < (udev.wait_loop started_at added timeout steps).1.length →
      ∃ s, steps[k]? = some s ∧ 0 ≤ s.ret ∧ s.add_fired = false ∧
        udev.get_current_time_ms s.ts < started_at + 10000 ∧
        (udev.wait_loop started_at added timeout steps).1[k + 1]? =
          some ((started_at + 10000 - udev.get_current_time_ms s.ts : Nat) : Int) := by
  induction steps generalizing added timeout with
  | nil =>
    cases added with
    | true => simp [wait_loop_added]
    | false => simp [udev.wait_loop]
  | cons step rest ih =>
    cases added with
    | true => simp [wait_loop_added]
    | false =>
      have hrest : ∀ s ∈ rest, started_at ≤ udev.get_current_time_ms s.ts :=
        fun s hs => hge s (List.mem_cons_of_mem _ hs)
      have hstep : started_at ≤ udev.get_current_time_ms step.ts :=
        hge step (List.mem_cons_self _ _)
      have hdl : (started_at + udev.WAIT_GPU_TIMEOUT) % 2 ^ 64 = started_at + 10000 := by
        unfold udev.WAIT_GPU_TIMEOUT
        exact Nat.mod_eq_of_lt hno
      rw [udev.wait_loop]
      by_cases hret : step.ret < 0
      · simp [hret]
      · rw [if_neg hret]
        dsimp only
        rw [hdl]
        by_cases hnow : udev.get_current_time_ms step.ts ≥ started_at + 10000
        · simp [hnow]
        · rw [if_neg hnow]
          have hlt : udev.get_current_time_ms step.ts < started_at + 10000 := by omega
          have ht : (started_at + 10000 + 2 ^ 64 - udev.get_current_time_ms step.ts) % 2 ^ 64
              = started_at + 10000 - udev.get_current_time_ms step.ts := by
            have : started_at + 10000 + 2 ^ 64 - udev.get_current_time_ms step.ts
                = (started_at + 10000 - udev.get_current_time_ms step.ts) + 2 ^ 64 := by omega
            rw [this, Nat.add_mod_right]
            exact Nat.mod_eq_of_lt (by omega)
          rw [ht]
          obtain ⟨ih1, ih2⟩ := ih hrest step.add_fired
            (started_at + 10000 - udev.get_current_time_ms step.ts)
          refine ⟨fun _ => by simp, ?_⟩
          intro k hk
          cases k with
          | zero =>
            refine ⟨step, by simp, by omega, ?_, hlt, ?_⟩
            · cases hf : step.add_fired with
              | false => rfl
              | true =>
                rw [hf, wait_loop_added] at hk
                simp at hk
            · have hf : step.add_fired = false := by
                cases hf : step.add_fired with
                | false => rfl
                | true =>
                  rw [hf, wait_loop_added] at hk
                  simp at hk
              have h1 := ih1 hf
              rw [to_int_of_small _ (by omega)] at h1
              rw [List.getElem?_cons_succ, ← List.head?_eq_getElem?]
              exact h1
          | succ k =>
            obtain ⟨s, hs1, hs2⟩ := ih2 k (by simpa using hk)
            exact ⟨s, by simpa using hs1, by simpa using hs2⟩

theorem wait_loop_ends (started_at : Nat) (steps : List udev.dispatch_step)
    (h : ∃ s ∈ steps, s.ret < 0 ∨ s.add_fired = true ∨
      udev.get_current_time_ms s.ts ≥ (started_at + udev.WAIT_GPU_TIMEOUT) % 2 ^ 64)
    (added : Bool) (timeout : Nat) :
    (udev.wait_loop started_at added timeout steps).2 ≠ .pending := by
  induction steps generalizing added timeout with
  | nil =>
    obtain ⟨s, hs, -⟩ := h
    simp at hs
  | cons step rest ih =>
    cases added with
    | true => simp [udev.wait_loop]
    | false =>
      rw [udev.wait_loop]
      split
      · simp
      · next hret =>
        dsimp only
        split
        · simp
        · next hnow =>
          obtain ⟨s, hs, hcase⟩ := h
          rcases List.mem_cons.1 hs with heq | hmem
          · subst heq
            rcases hcase with hc | hc | hc
            · exact absurd hc hret
            · rw [hc]
              simp [udev.wait_loop]
            · exact absurd hc hnow
          · exact ih ⟨s, hmem, hcase⟩ _ _

/-- C10: the bounded wait of `udev.dev_find_gpus`. Let `started_at + 10000` not overflow
64 bits and let every clock value read during the wait be at least `started_at`. Then the
first call of `wl_event_loop_dispatch` gets the timeout 10000; and every later call, the
one numbered `k + 1`, comes after a turn `k` of the event loop in which the dispatch
succeeded, the add listener did not fire and the clock value `now` read was below
`started_at + 10000`, and it gets the timeout `started_at + 10000 - now`, which lies
between 1 and 10000 and, added to the time `now - started_at` already spent, makes exactly
the budget of 10000 ms. -/
theorem wait_timeouts_within_budget (started_at : Nat) (steps : List udev.dispatch_step)
    (hno : started_at + udev.WAIT_GPU_TIMEOUT < 2 ^ 64)
    (hge : ∀ s ∈ steps, started_at ≤ udev.get_current_time_ms s.ts) :
    (udev.wait_loop started_at false udev.WAIT_GPU_TIMEOUT steps).1.head? = some 10000 ∧
    ∀ k, k + 1 < (udev.wait_loop started_at false udev.WAIT_GPU_TIMEOUT steps).1.length →
      ∃ s, steps[k]? = some s ∧ 0 ≤ s.ret ∧ s.add_fired = false ∧
        udev.get_current_time_ms s.ts < started_at + 10000 ∧
        (udev.wait_loop started_at false udev.WAIT_GPU_TIMEOUT steps).1[k + 1]? =
          some ((started_at + 10000 - udev.get_current_time_ms s.ts : Nat) : Int) ∧
        1 ≤ started_at + 10000 - udev.get_current_time_ms s.ts ∧
        started_at + 10000 - udev.get_current_time_ms s.ts ≤ 10000 ∧
        (udev.get_current_time_ms s.ts - started_at) +
          (started_at + 10000 - udev.get_current_time_ms s.ts) = 10000 := by
  have hno' : started_at + 10000 < 2 ^ 64 := hno
  obtain ⟨h1, h2⟩ := wait_loop_timeouts started_at hno' steps hge false udev.WAIT_GPU_TIMEOUT
  refine ⟨?_, ?_⟩
  · rw [h1 rfl]
    rfl
  · intro k hk
    obtain ⟨s, hs, hret, hadd, hlt, hget⟩ := h2 k hk
    have hmem : s ∈ steps := List.getElem?_mem hs
    have := hge s hmem
    exact ⟨s, hs, hret, hadd, hlt, hget, by omega, by omega, by omega⟩

/-- A wait started at 100000 ms in which the event loop wakes at 100050 ms and at
110000 ms: the timeouts are 10000 and 9950. -/
theorem wait_timeouts_within_budget_witness :
    (100000 + udev.WAIT_GPU_TIMEOUT < 2 ^ 64) ∧
    (udev.wait_loop 100000 false udev.WAIT_GPU_TIMEOUT
      [⟨0, false, ⟨100, 50000000⟩⟩, ⟨0, false, ⟨110, 0⟩⟩]).1.head? = some 10000 ∧
    ∃ s, [(⟨0, false, ⟨100, 50000000⟩⟩ : udev.dispatch_step), ⟨0, false, ⟨110, 0⟩⟩][0]? = some s ∧
      0 ≤ s.ret ∧ s.add_fired = false ∧
      udev.get_current_time_ms s.ts < 100000 + 10000 ∧
      (udev.wait_loop 100000 false udev.WAIT_GPU_TIMEOUT
        [⟨0, false, ⟨100, 50000000⟩⟩, ⟨0, false, ⟨110, 0⟩⟩]).1[0 + 1]? =
          some ((100000 + 10000 - udev.get_current_time_ms s.ts : Nat) : Int) ∧
      1 ≤ 100000 + 10000 - udev.get_current_time_ms s.ts ∧
      100000 + 10000 - udev.get_current_time_ms s.ts ≤ 10000 ∧
      (udev.get_current_time_ms s.ts - 100000) +
        (100000 + 10000 - udev.get_current_time_ms s.ts) = 10000 :=
  ⟨by decide,
   (wait_timeouts_within_budget 100000 [⟨0, false, ⟨100, 50000000⟩⟩, ⟨0, false, ⟨110, 0⟩⟩]
      (by decide) (by decide)).1,
   (wait_timeouts_within_budget 100000 [⟨0, false, ⟨100, 50000000⟩⟩, ⟨0, false, ⟨110, 0⟩⟩]
      (by decide) (by decide)).2 0 (by decide)⟩

/-! ## The scan loop of the udev enumerator -/

theorem udev_scan_loop_full (session : wlr_session) (ret_len : Nat)
    (scan : List udev.udev_list_entry) (st : find_state) (h : st.count = ret_len) :
    udev.scan_loop session ret_len scan st = st := by
  cases scan with
  | nil => rfl
  | cons e rest => rw [udev_scan_loop_cons, if_pos h]

theorem udev_scan_loop_append (session : wlr_session) (ret_len : Nat)
    (pre post : List udev.udev_list_entry) (st : find_state) :
    udev.scan_loop session ret_len (pre ++ post) st =
      udev.scan_loop session ret_len post (udev.scan_loop session ret_len pre st) := by
  induction pre generalizing st with
  | nil => rfl
  | cons e rest ih =>
    rw [List.cons_append, udev_scan_loop_cons, udev_scan_loop_cons]
    split
    · next h => rw [udev_scan_loop_full _ _ _ _ h]
    · exact ih _

theorem udev_scan_step_eligible (session : wlr_session) (entry : udev.udev_list_entry)
    (st : find_state) (h : udev_eligible session.seat entry = true) :
    (udev_scan_step session entry st).count = st.count + 1 ∧
    (udev_scan_step session entry st).opens = st.opens ++ [udev_entry_devnode entry] ∧
    (udev_scan_step session entry st).writes =
      st.writes ++ (if udev_boot_vga entry = true then [st.count, 0, st.count]
        else [st.count]) ∧
    (udev_boot_vga entry = true → (udev_scan_step session entry st).ret 0 = entry.kms) ∧
    (udev_boot_vga entry = false → 1 ≤ st.count →
      (udev_scan_step session entry st).ret 0 = st.ret 0) := by
  unfold udev_eligible at h
  unfold udev_scan_step udev_entry_devnode udev_boot_vga
  cases hdev : entry.device with
  | none => simp [hdev] at h
  | some dev =>
    simp only [hdev, Bool.and_eq_true] at h
    obtain ⟨hseat, hkms⟩ := h
    obtain ⟨wlr_dev, hk⟩ := Option.isSome_iff_exists.1 hkms
    simp only [hseat, if_true, hk, udev_accept]
    split
    · next hb =>
      refine ⟨rfl, rfl, by simp, ?_, fun hf => by rw [hb] at hf; cases hf⟩
      intro _
      simp only [store]
      by_cases h0 : st.count = 0
      · simp [h0]
      · have : ¬ (0 = st.count) := fun h => h0 h.symm
        simp [this]
    · next hb =>
      refine ⟨rfl, rfl, by simp, fun ht => absurd ht hb, ?_⟩
      intro _ h1
      simp only [store]
      rw [if_neg (by omega)]

theorem udev_scan_step_not_eligible (session : wlr_session) (entry : udev.udev_list_entry)
    (st : find_state) (h : udev_eligible session.seat entry = false) :
    (udev_scan_step session entry st).count = st.count ∧
    (udev_scan_step session entry st).ret = st.ret ∧
    (udev_scan_step session entry st).writes = st.writes ∧
    (udev_scan_step session entry st).opens =
      st.opens ++ (if udev_on_seat session.seat entry = true then [udev_entry_devnode entry]
        else []) := by
  unfold udev_eligible at h
  unfold udev_scan_step udev_entry_devnode udev_on_seat
  cases hdev : entry.device with
  | none => simp
  | some dev =>
    simp only [hdev, Bool.and_eq_false_iff] at h
    dsimp only
    by_cases hseat : seat_filter_spec session.seat
        (udev.udev_device_get_property_value dev "ID_SEAT") = true
    · have hk : entry.kms = none := by
        rcases h with h | h
        · rw [hseat] at h; cases h
        · cases hkms : entry.kms with
          | none => rfl
          | some d => rw [hkms] at h; cases h
      simp [hseat, hk, udev_accept]
    · simp [hseat]

theorem udev_scan_step_count (session : wlr_session) (entry : udev.udev_list_entry)
    (st : find_state) :
    (udev_scan_step session entry st).count =
      st.count + (if udev_eligible session.seat entry = true then 1 else 0) := by
  by_cases h : udev_eligible session.seat entry = true
  · rw [if_pos h, (udev_scan_step_eligible session entry st h).1]
  · rw [if_neg h, (udev_scan_step_not_eligible session entry st (by simpa using h)).1]
    rfl

theorem udev_scan_loop_count_le (session : wlr_session) (ret_len : Nat)
    (scan : List udev.udev_list_entry) (st : find_state) :
    st.count ≤ (udev.scan_loop session ret_len scan st).count ∧
    (udev.scan_loop session ret_len scan st).count ≤
      st.count + (scan.filter (udev_eligible session.seat)).length := by
  induction scan generalizing st with
  | nil => exact ⟨Nat.le_refl _, Nat.le_add_right _ _⟩
  | cons e rest ih =>
    rw [udev_scan_loop_cons]
    split
    · exact ⟨Nat.le_refl _, Nat.le_add_right _ _⟩
    · have := ih (udev_scan_step session e st)
      rw [udev_scan_step_count] at this
      by_cases he : udev_eligible session.seat e = true
      · rw [List.filter_cons_of_pos he, List.length_cons]
        rw [if_pos he] at this
        omega
      · rw [List.filter_cons_of_neg he]
        rw [if_neg he] at this
        omega

theorem udev_scan_loop_prefix (session : wlr_session) (ret_len : Nat)
    (pre : List udev.udev_list_entry) (st : find_state)
    (hroom : st.count + (pre.filter (udev_eligible session.seat)).length ≤ ret_len)
    (hlast : ∀ e, pre.getLast? = some e → udev_eligible session.seat e = true) :
    (udev.scan_loop session ret_len pre st).count =
      st.count + (pre.filter (udev_eligible session.seat)).length ∧
    (udev.scan_loop session ret_len pre st).opens =
      st.opens ++ (pre.filter (udev_on_seat session.seat)).map udev_entry_devnode := by
  induction pre generalizing st with
  | nil => simp [udev.scan_loop]
  | cons e rest ih =>
    have hpos : 1 ≤ ((e :: rest).filter (udev_eligible session.seat)).length := by
      obtain ⟨l, hl⟩ : ∃ l, (e :: rest).getLast? = some l := by
        cases hg : (e :: rest).getLast? with
        | none => simp at hg
        | some l => exact ⟨l, rfl⟩
      have hmem : l ∈ (e :: rest).filter (udev_eligible session.seat) :=
        List.mem_filter.2 ⟨List.mem_of_getLast?_eq_some hl, hlast l hl⟩
      exact List.length_pos_of_mem hmem
    have hlast' : ∀ l, rest.getLast? = some l → udev_eligible session.seat l = true := by
      intro l hl
      apply hlast
      cases rest with
      | nil => simp at hl
      | cons r rs => rw [List.getLast?_cons_cons]; exact hl
    rw [udev_scan_loop_cons, if_neg (by omega)]
    by_cases he : udev_eligible session.seat e = true
    · obtain ⟨hc, ho, -⟩ := udev_scan_step_eligible session e st he
      have hseat : udev_on_seat session.seat e = true := by
        unfold udev_eligible at he
        unfold udev_on_seat
        cases hd : e.device with
        | none => simp [hd] at he
        | some dev =>
          simp only [hd, Bool.and_eq_true] at he
          exact he.1
      rw [List.filter_cons_of_pos he, List.length_cons] at hroom ⊢
      obtain ⟨h1, h2⟩ := ih (udev_scan_step session e st) (by omega) hlast'
      rw [h1, h2, hc, ho, List.filter_cons_of_pos hseat, List.map_cons]
      exact ⟨by omega, by simp⟩
    · obtain ⟨hc, -, -, ho⟩ := udev_scan_step_not_eligible session e st (by simpa using he)
      rw [List.filter_cons_of_neg he] at hroom ⊢
      obtain ⟨h1, h2⟩ := ih (udev_scan_step session e st) (by omega) hlast'
      rw [h1, h2, hc, ho]
      refine ⟨rfl, ?_⟩
      by_cases hs : udev_on_seat session.seat e = true
      · rw [if_pos hs, List.filter_cons_of_pos hs, List.map_cons]
        simp
      · rw [if_neg hs, List.filter_cons_of_neg hs]
        simp

theorem eligible_prefix_exists {α : Type} (p : α → Bool) (scan : List α) (n : Nat)
    (h : n ≤ (scan.filter p).length) :
    ∃ pre post, scan = pre ++ post ∧ (pre.filter p).length = n ∧
      ∀ e, pre.getLast? = some e → p e = true := by
  induction scan generalizing n with
  | nil =>
    refine ⟨[], [], rfl, ?_, by simp⟩
    simp at h
    simp [h]
  | cons x rest ih =>
    cases n with
    | zero => exact ⟨[], x :: rest, rfl, rfl, by simp⟩
    | succ n =>
      by_cases hx : p x = true
      · rw [List.filter_cons_of_pos hx, List.length_cons] at h
        obtain ⟨pre, post, hsplit, hlen, hlast⟩ := ih n (by omega)
        refine ⟨x :: pre, post, by rw [hsplit]; rfl, ?_, ?_⟩
        · rw [List.filter_cons_of_pos hx, List.length_cons, hlen]
        · intro e he
          cases pre with
          | nil =>
            simp at he
            rw [← he]; exact hx
          | cons y ys =>
            rw [List.getLast?_cons_cons] at he
            exact hlast e he
      · rw [List.filter_cons_of_neg hx] at h
        obtain ⟨pre, post, hsplit, hlen, hlast⟩ := ih (n + 1) h
        refine ⟨x :: pre, post, by rw [hsplit]; rfl, ?_, ?_⟩
        · rw [List.filter_cons_of_neg hx, hlen]
        · intro e he
          cases pre with
          | nil => simp at hlen
          | cons y ys =>
            rw [List.getLast?_cons_cons] at he
            exact hlast e he

theorem udev_dev_find_gpus_direct (session : wlr_session) (env : udev.find_env)
    (ret_len : Nat) (ret : Nat → Option wlr_device) (scan : List udev.udev_list_entry)
    (h1 : env.scan1 = some scan) (h2 : scan ≠ []) :
    udev.dev_find_gpus session env ret_len ret =
      some ⟨(udev.scan_loop session ret_len scan ⟨ret, 0, [], []⟩).count,
        udev.scan_loop session ret_len scan ⟨ret, 0, [], []⟩, [],
        [.enumerate_new 1, .enumerate_unref 1]⟩ := by
  unfold udev.dev_find_gpus
  simp only [h1]
  rw [if_neg h2]

theorem udev_dev_find_gpus_rescan (session : wlr_session) (env : udev.find_env)
    (ret_len : Nat) (ret : Nat → Option wlr_device) (scan : List udev.udev_list_entry)
    (h1 : env.scan1 = some []) (h2 : env.scan2 = some scan)
    (hw : (udev.wait_loop (udev.get_current_time_ms env.start) false udev.WAIT_GPU_TIMEOUT
        env.steps).2 = .added ∨
      (udev.wait_loop (udev.get_current_time_ms env.start) false udev.WAIT_GPU_TIMEOUT
        env.steps).2 = .timed_out) :
    udev.dev_find_gpus session env ret_len ret =
      some ⟨(udev.scan_loop session ret_len scan ⟨ret, 0, [], []⟩).count,
        udev.scan_loop session ret_len scan ⟨ret, 0, [], []⟩,
        (udev.wait_loop (udev.get_current_time_ms env.start) false udev.WAIT_GPU_TIMEOUT
          env.steps).1,
        [.enumerate_new 1, .enumerate_unref 1, .listener_add, .listener_remove,
          .enumerate_new 2, .enumerate_unref 2]⟩ := by
  unfold udev.dev_find_gpus
  simp only [h1, h2, if_true]
  rcases hw with hw | hw <;> rw [hw] <;> rfl

/-- C2: in the udev backend, when the scan list holds at least `N` eligible candidates
(device object creatable, seat filter passed, `session_open_if_kms` returns a device),
the scan loop of `dev_find_gpus` with capacity `N` ends with the count `N`; the scan list
splits into a part `pre` that ends with the `N`-th eligible candidate (empty when `N` is
0) and a rest `post`, and the calls of `session_open_if_kms` are exactly those for the
candidates of `pre` that have a device object and pass the seat filter, so none is made
for a candidate of `post`; and `dev_find_gpus` returns `N` both when the first scan
returns this list, non-empty, and when the first scan is empty, the bounded wait ends by
the add listener or by the timeout, and the second scan returns this list. -/
theorem full_output_stops_the_scan (session : wlr_session) (N : Nat)
    (scan : List udev.udev_list_entry) (ret : Nat → Option wlr_device)
    (hM : N ≤ (scan.filter (udev_eligible session.seat)).length) :
    (udev.scan_loop session N scan ⟨ret, 0, [], []⟩).count = N ∧
    (∃ pre post, scan = pre ++ post ∧
      (pre.filter (udev_eligible session.seat)).length = N ∧
      (∀ e, pre.getLast? = some e → udev_eligible session.seat e = true) ∧
      (udev.scan_loop session N scan ⟨ret, 0, [], []⟩).opens =
        (pre.filter (udev_on_seat session.seat)).map udev_entry_devnode) ∧
    (∀ env : udev.find_env, env.scan1 = some scan → scan ≠ [] →
      ∃ r, udev.dev_find_gpus session env N ret = some r ∧ r.retval = (N : Int) ∧
        r.state.count = N ∧
        r.state.opens = (udev.scan_loop session N scan ⟨ret, 0, [], []⟩).opens) ∧
    (∀ env : udev.find_env, env.scan1 = some [] → env.scan2 = some scan →
      ((udev.wait_loop (udev.get_current_time_ms env.start) false udev.WAIT_GPU_TIMEOUT
          env.steps).2 = .added ∨
        (udev.wait_loop (udev.get_current_time_ms env.start) false udev.WAIT_GPU_TIMEOUT
          env.steps).2 = .timed_out) →
      ∃ r, udev.dev_find_gpus session env N ret = some r ∧ r.retval = (N : Int) ∧
        r.state.count = N ∧
        r.state.opens = (udev.scan_loop session N scan ⟨ret, 0, [], []⟩).opens) := by
  obtain ⟨pre, post, hsplit, hlen, hlast⟩ :=
    eligible_prefix_exists (udev_eligible session.seat) scan N hM
  obtain ⟨hc, ho⟩ := udev_scan_loop_prefix session N pre ⟨ret, 0, [], []⟩
    (by simp [hlen]) hlast
  have hfull : udev.scan_loop session N scan ⟨ret, 0, [], []⟩ =
      udev.scan_loop session N pre ⟨ret, 0, [], []⟩ := by
    rw [hsplit, udev_scan_loop_append, udev_scan_loop_full]
    rw [hc, hlen]
    simp
  have hcount : (udev.scan_loop session N scan ⟨ret, 0, [], []⟩).count = N := by
    rw [hfull, hc, hlen]
    simp
  refine ⟨hcount, ⟨pre, post, hsplit, hlen, hlast, ?_⟩, ?_, ?_⟩
  · rw [hfull, ho]
    simp
  · intro env h1 h2
    refine ⟨_, udev_dev_find_gpus_direct session env N ret scan h1 h2, ?_, hcount, rfl⟩
    simp only [hcount]
  · intro env h1 h2 hw
    refine ⟨_, udev_dev_find_gpus_rescan session env N ret scan h1 h2 hw, ?_, hcount, rfl⟩
    simp only [hcount]

/-- Capacity 1 and two cards that can both be opened: the count is 1 and only the first
card is handed to `session_open_if_kms`. -/
theorem full_output_stops_the_scan_witness :
    1 ≤ (([⟨"/sys/class/drm/card0", some ⟨"card0", some "/dev/dri/card0", none, 57856, [],
            none⟩, some ⟨7, 57856⟩⟩,
          ⟨"/sys/class/drm/card1", some ⟨"card1", some "/dev/dri/card1", none, 57857, [],
            none⟩, some ⟨8, 57857⟩⟩] : List udev.udev_list_entry).filter
        (udev_eligible "")).length ∧
    (udev.scan_loop ⟨"", []⟩ 1
        [⟨"/sys/class/drm/card0", some ⟨"card0", some "/dev/dri/card0", none, 57856, [],
            none⟩, some ⟨7, 57856⟩⟩,
          ⟨"/sys/class/drm/card1", some ⟨"card1", some "/dev/dri/card1", none, 57857, [],
            none⟩, some ⟨8, 57857⟩⟩]
        ⟨fun _ => none, 0, [], []⟩).count = 1 :=
  ⟨by decide, (full_output_stops_the_scan ⟨"", []⟩ 1 _ (fun _ => none) (by decide)).1⟩

/-! ## Boot-VGA promotion -/

theorem udev_scan_loop_keeps_first (session : wlr_session) (ret_len : Nat)
    (post : List udev.udev_list_entry) (st : find_state) (hst : 1 ≤ st.count)
    (hpost : ∀ e ∈ post, udev_eligible session.seat e = true → udev_boot_vga e = false) :
    (udev.scan_loop session ret_len post st).ret 0 = st.ret 0 := by
  induction post generalizing st with
  | nil => rfl
  | cons e rest ih =>
    rw [udev_scan_loop_cons]
    split
    · rfl
    · have hrest : ∀ x ∈ rest, udev_eligible session.seat x = true → udev_boot_vga x = false :=
        fun x hx => hpost x (List.mem_cons_of_mem _ hx)
      by_cases he : udev_eligible session.seat e = true
      · obtain ⟨hc, -, -, -, hkeep⟩ := udev_scan_step_eligible session e st he
        rw [ih _ (by omega) hrest]
        exact hkeep (hpost e (List.mem_cons_self _ _) he) hst
      · obtain ⟨hc, hr, -⟩ := udev_scan_step_not_eligible session e st (by simpa using he)
        rw [ih _ (by omega) hrest, hr]

theorem udev_boot_vga_first (session : wlr_session) (N : Nat)
    (pre post : List udev.udev_list_entry) (c : udev.udev_list_entry) (d : wlr_device)
    (ret : Nat → Option wlr_device)
    (helig : udev_eligible session.seat c = true) (hkms : c.kms = some d)
    (hboot : udev_boot_vga c = true)
    (hroom : (pre.filter (udev_eligible session.seat)).length < N)
    (hothers : ∀ e ∈ pre ++ post, udev_eligible session.seat e = true →
      udev_boot_vga e = false) :
    (udev.scan_loop session N (pre ++ c :: post) ⟨ret, 0, [], []⟩).ret 0 = some d ∧
    1 ≤ (udev.scan_loop session N (pre ++ c :: post) ⟨ret, 0, [], []⟩).count := by
  have hle := (udev_scan_loop_count_le session N pre ⟨ret, 0, [], []⟩).2
  simp only [Nat.zero_add] at hle
  obtain ⟨hc, -, -, hfirst, -⟩ := udev_scan_step_eligible session c
    (udev.scan_loop session N pre ⟨ret, 0, [], []⟩) helig
  rw [udev_scan_loop_append, udev_scan_loop_cons, if_neg (by omega)]
  constructor
  · rw [udev_scan_loop_keeps_first _ _ _ _ (by omega)
      (fun e he => hothers e (List.mem_append_right _ he)), hfirst hboot, hkms]
  · have := (udev_scan_loop_count_le session N post
      (udev_scan_step session c (udev.scan_loop session N pre ⟨ret, 0, [], []⟩))).1
    omega

theorem demi_callback_eligible (mask : Nat) (session : wlr_session) (max_len : Nat)
    (entry : demi.scan_entry) (ctx : find_state)
    (h : demi_eligible session.seat entry = true) :
    (demi.find_gpus_callback mask session max_len entry ctx).ctx.count = ctx.count + 1 ∧
    ((demi.find_gpus_callback mask session max_len entry ctx).retval = -1 ↔
      ctx.count + 1 = max_len) ∧
    (demi_boot_vga mask entry = true →
      (demi.find_gpus_callback mask session max_len entry ctx).ctx.ret 0 = entry.kms) ∧
    (demi_boot_vga mask entry = false → 1 ≤ ctx.count →
      (demi.find_gpus_callback mask session max_len entry ctx).ctx.ret 0 = ctx.ret 0) := by
  unfold demi_eligible at h
  simp only [Bool.and_eq_true, decide_eq_true_eq] at h
  obtain ⟨⟨⟨hcls, hnode⟩, hseat⟩, hkms⟩ := h
  obtain ⟨devnode, hn⟩ := Option.isSome_iff_exists.1 hnode
  obtain ⟨wlr_dev, hk⟩ := Option.isSome_iff_exists.1 hkms
  have hs := (seat_filter_spec_iff _ _).1 hseat
  unfold demi_boot_vga
  simp only [demi.find_gpus_callback, hcls, hn, hk, if_neg hs, ne_eq, not_true_eq_false,
    if_false]
  by_cases hfull : ctx.count + 1 = max_len
  · simp only [hfull, if_true]
    refine ⟨trivial, by simp, ?_, ?_⟩
    · intro hb
      simp only [hb, if_true, store]
      by_cases h0 : ctx.count = 0
      · simp [h0]
      · have : ¬ (0 = ctx.count) := fun h => h0 h.symm
        simp [this]
    · intro hb h1
      simp only [hb, Bool.false_eq_true, if_false]
      unfold store
      rw [if_neg (by omega)]
  · simp only [hfull, if_false]
    refine ⟨trivial, by simp [hfull], ?_, ?_⟩
    · intro hb
      simp only [hb, if_true, store]
      by_cases h0 : ctx.count = 0
      · simp [h0]
      · have : ¬ (0 = ctx.count) := fun h => h0 h.symm
        simp [this]
    · intro hb h1
      simp only [hb, Bool.false_eq_true, if_false]
      unfold store
      rw [if_neg (by omega)]

theorem demi_callback_not_eligible (mask : Nat) (session : wlr_session) (max_len : Nat)
    (entry : demi.scan_entry) (ctx : find_state)
    (h : demi_eligible session.seat entry = false) :
    (demi.find_gpus_callback mask session max_len entry ctx).retval = 0 ∧
    (demi.find_gpus_callback mask session max_len entry ctx).ctx.count = ctx.count ∧
    (demi.find_gpus_callback mask session max_len entry ctx).ctx.ret = ctx.ret ∧
    (demi.find_gpus_callback mask session max_len entry ctx).ctx.writes = ctx.writes := by
  unfold demi_eligible at h
  unfold demi.find_gpus_callback
  cases hcls : entry.dev.dev_class with
  | none => exact ⟨rfl, rfl, rfl, rfl⟩
  | some cls =>
    dsimp only
    by_cases hdrm : cls = .DEMI_CLASS_DRM
    · rw [if_neg (by simpa using hdrm)]
      cases hn : entry.dev.devnode with
      | none => exact ⟨rfl, rfl, rfl, rfl⟩
      | some devnode =>
        dsimp only
        by_cases hseat : seat_filter_spec session.seat entry.dev.seat = true
        · have hs := (seat_filter_spec_iff _ _).1 hseat
          rw [if_neg hs]
          cases hk : entry.kms with
          | none => exact ⟨rfl, rfl, rfl, rfl⟩
          | some d => simp [hcls, hdrm, hn, hseat, hk] at h
        · have hs := (not_congr (seat_filter_spec_iff _ _)).1 hseat
          rw [not_not] at hs
          rw [if_pos hs]
          exact ⟨rfl, rfl, rfl, rfl⟩
    · rw [if_pos hdrm]
      exact ⟨rfl, rfl, rfl, rfl⟩

theorem demi_scan_cons (cb : demi.scan_entry → find_state → demi.callback_result)
    (scan_error : Bool) (e : demi.scan_entry) (rest : List demi.scan_entry)
    (ctx : find_state) :
    demi.demi_enumerate_scan_system cb scan_error (e :: rest) ctx =
      if (cb e ctx).retval = -1 then (-1, (cb e ctx).ctx, [(cb e ctx).finished])
      else ((demi.demi_enumerate_scan_system cb scan_error rest (cb e ctx).ctx).1,
        (demi.demi_enumerate_scan_system cb scan_error rest (cb e ctx).ctx).2.1,
        (cb e ctx).finished ::
          (demi.demi_enumerate_scan_system cb scan_error rest (cb e ctx).ctx).2.2) := by
  rw [demi.demi_enumerate_scan_system]

theorem demi_callback_stop (mask : Nat) (session : wlr_session) (max_len : Nat)
    (entry : demi.scan_entry) (ctx : find_state)
    (h : (demi.find_gpus_callback mask session max_len entry ctx).retval = -1) :
    (demi.find_gpus_callback mask session max_len entry ctx).ctx.count = max_len := by
  by_cases he : demi_eligible session.seat entry = true
  · obtain ⟨hc, hstop, -⟩ := demi_callback_eligible mask session max_len entry ctx he
    rw [hc]
    exact hstop.1 h
  · have := (demi_callback_not_eligible mask session max_len entry ctx (by simpa using he)).1
    rw [this] at h
    cases h

theorem demi_scan_stop (mask : Nat) (session : wlr_session) (max_len : Nat)
    (scan : List demi.scan_entry) (ctx : find_state)
    (h : (demi.demi_enumerate_scan_system (demi.find_gpus_callback mask session max_len)
      false scan ctx).1 = -1) :
    (demi.demi_enumerate_scan_system (demi.find_gpus_callback mask session max_len)
      false scan ctx).2.1.count = max_len := by
  induction scan generalizing ctx with
  | nil => simp [demi.demi_enumerate_scan_system] at h
  | cons e rest ih =>
    rw [demi_scan_cons] at h ⊢
    split
    · next hstop => exact demi_callback_stop mask session max_len e ctx hstop
    · next hgo =>
      rw [if_neg hgo] at h
      exact ih _ h

theorem demi_scan_keeps_first (mask : Nat) (session : wlr_session) (max_len : Nat)
    (scan_error : Bool) (post : List demi.scan_entry) (ctx : find_state)
    (hctx : 1 ≤ ctx.count)
    (hpost : ∀ e ∈ post, demi_eligible session.seat e = true →
      demi_boot_vga mask e = false) :
    (demi.demi_enumerate_scan_system (demi.find_gpus_callback mask session max_len)
      scan_error post ctx).2.1.ret 0 = ctx.ret 0 ∧
    1 ≤ (demi.demi_enumerate_scan_system (demi.find_gpus_callback mask session max_len)
      scan_error post ctx).2.1.count := by
  induction post generalizing ctx with
  | nil => exact ⟨rfl, hctx⟩
  | cons e rest ih =>
    have hrest : ∀ x ∈ rest, demi_eligible session.seat x = true →
        demi_boot_vga mask x = false :=
      fun x hx => hpost x (List.mem_cons_of_mem _ hx)
    have hstep : (demi.find_gpus_callback mask session max_len e ctx).ctx.ret 0 = ctx.ret 0 ∧
        1 ≤ (demi.find_gpus_callback mask session max_len e ctx).ctx.count := by
      by_cases he : demi_eligible session.seat e = true
      · obtain ⟨hc, -, -, hkeep⟩ := demi_callback_eligible mask session max_len e ctx he
        exact ⟨hkeep (hpost e (List.mem_cons_self _ _) he) hctx, by omega⟩
      · obtain ⟨-, hc, hr, -⟩ :=
          demi_callback_not_eligible mask session max_len e ctx (by simpa using he)
        exact ⟨by rw [hr], by omega⟩
    rw [demi_scan_cons]
    split
    · exact hstep
    · obtain ⟨h1, h2⟩ := ih _ hstep.2 hrest
      exact ⟨by rw [h1]; exact hstep.1, h2⟩

theorem demi_scan_boot_vga_first (mask : Nat) (session : wlr_session) (max_len : Nat)
    (scan_error : Bool) (pre post : List demi.scan_entry) (c : demi.scan_entry)
    (d : wlr_device) (ctx : find_state)
    (helig : demi_eligible session.seat c = true) (hkms : c.kms = some d)
    (hboot : demi_boot_vga mask c = true)
    (hroom : ctx.count + (pre.filter (demi_eligible session.seat)).length < max_len)
    (hothers : ∀ e ∈ pre ++ post, demi_eligible session.seat e = true →
      demi_boot_vga mask e = false) :
    (demi.demi_enumerate_scan_system (demi.find_gpus_callback mask session max_len)
      scan_error (pre ++ c :: post) ctx).2.1.ret 0 = some d ∧
    1 ≤ (demi.demi_enumerate_scan_system (demi.find_gpus_callback mask session max_len)
      scan_error (pre ++ c :: post) ctx).2.1.count := by
  induction pre generalizing ctx with
  | nil =>
    obtain ⟨hc, -, hfirst, -⟩ := demi_callback_eligible mask session max_len c ctx helig
    have hf := hfirst hboot
    rw [hkms] at hf
    rw [List.nil_append, demi_scan_cons]
    split
    · exact ⟨hf, by dsimp only; omega⟩
    · obtain ⟨h1, h2⟩ := demi_scan_keeps_first mask session max_len scan_error post
        (demi.find_gpus_callback mask session max_len c ctx).ctx (by omega)
        (fun e he => hothers e (by simpa using he))
      exact ⟨by rw [h1]; exact hf, h2⟩
  | cons e rest ih =>
    have hrest : ∀ x ∈ rest ++ post, demi_eligible session.seat x = true →
        demi_boot_vga mask x = false :=
      fun x hx => hothers x (by rw [List.cons_append]; exact List.mem_cons_of_mem _ hx)
    rw [List.cons_append, demi_scan_cons]
    by_cases he : demi_eligible session.seat e = true
    · obtain ⟨hc, hstop, -⟩ := demi_callback_eligible mask session max_len e ctx he
      rw [List.filter_cons_of_pos he, List.length_cons] at hroom
      have hgo : ¬ (demi.find_gpus_callback mask session max_len e ctx).retval = -1 :=
        fun h => by have := hstop.1 h; omega
      rw [if_neg hgo]
      exact ih _ (by omega) hrest
    · obtain ⟨hr, hc, -⟩ :=
        demi_callback_not_eligible mask session max_len e ctx (by simpa using he)
      rw [List.filter_cons_of_neg he] at hroom
      rw [if_neg (by rw [hr]; decide)]
      exact ih _ (by omega) hrest

/-- C3, as amended: when exactly one eligible candidate `c` is boot-VGA-flagged and fewer
than `N` eligible candidates come before it in scan order, enumeration with capacity `N`
ends with the device opened for `c` at index 0 of the output, inside the filled part, in
both backends: for the scan loop of `udev.dev_find_gpus`, for `udev.dev_find_gpus` when
the first scan returns the list or when the first scan is empty, the bounded wait ends by
the add listener or by the timeout and the second scan returns the list, and for
`demi.dev_find_gpus` when `demi_enumerate_init` succeeds (where the value returned is the
count when the scan itself does not fail). -/
theorem boot_vga_first_if_reached (session : wlr_session) (N : Nat)
    (ret : Nat → Option wlr_device) :
    (∀ (pre post : List udev.udev_list_entry) (c : udev.udev_list_entry) (d : wlr_device),
      udev_eligible session.seat c = true → c.kms = some d → udev_boot_vga c = true →
      (∀ e ∈ pre ++ post, udev_eligible session.seat e = true → udev_boot_vga e = false) →
      (pre.filter (udev_eligible session.seat)).length < N →
      (udev.scan_loop session N (pre ++ c :: post) ⟨ret, 0, [], []⟩).ret 0 = some d ∧
      1 ≤ (udev.scan_loop session N (pre ++ c :: post) ⟨ret, 0, [], []⟩).count ∧
      (∀ env : udev.find_env, env.scan1 = some (pre ++ c :: post) →
        ∃ r, udev.dev_find_gpus session env N ret = some r ∧ r.state.ret 0 = some d ∧
          r.retval = (r.state.count : Int) ∧ 1 ≤ r.state.count) ∧
      (∀ env : udev.find_env, env.scan1 = some [] → env.scan2 = some (pre ++ c :: post) →
        ((udev.wait_loop (udev.get_current_time_ms env.start) false udev.WAIT_GPU_TIMEOUT
            env.steps).2 = .added ∨
          (udev.wait_loop (udev.get_current_time_ms env.start) false udev.WAIT_GPU_TIMEOUT
            env.steps).2 = .timed_out) →
        ∃ r, udev.dev_find_gpus session env N ret = some r ∧ r.state.ret 0 = some d ∧
          r.retval = (r.state.count : Int) ∧ 1 ≤ r.state.count)) ∧
    (∀ (mask : Nat) (env : demi.find_env) (pre post : List demi.scan_entry)
      (c : demi.scan_entry) (d : wlr_device),
      env.init_ok = true → env.entries = pre ++ c :: post →
      demi_eligible session.seat c = true → c.kms = some d → demi_boot_vga mask c = true →
      (∀ e ∈ pre ++ post, demi_eligible session.seat e = true →
        demi_boot_vga mask e = false) →
      (pre.filter (demi_eligible session.seat)).length < N →
      (demi.dev_find_gpus mask session env N ret).ctx.ret 0 = some d ∧
      1 ≤ (demi.dev_find_gpus mask session env N ret).ctx.count ∧
      (env.scan_error = false →
        (demi.dev_find_gpus mask session env N ret).retval =
          ((demi.dev_find_gpus mask session env N ret).ctx.count : Int))) := by
  constructor
  · intro pre post c d helig hkms hboot hothers hroom
    obtain ⟨h1, h2⟩ := udev_boot_vga_first session N pre post c d ret helig hkms hboot hroom
      hothers
    refine ⟨h1, h2, ?_, ?_⟩
    · intro env henv
      exact ⟨_, udev_dev_find_gpus_direct session env N ret _ henv (by simp), h1, rfl, h2⟩
    · intro env henv1 henv2 hw
      exact ⟨_, udev_dev_find_gpus_rescan session env N ret _ henv1 henv2 hw, h1, rfl, h2⟩
  · intro mask env pre post c d hinit hent helig hkms hboot hothers hroom
    obtain ⟨h1, h2⟩ := demi_scan_boot_vga_first mask session N env.scan_error pre post c d
      ⟨ret, 0, [], []⟩ helig hkms hboot (by simpa using hroom) hothers
    rw [← hent] at h1 h2
    unfold demi.dev_find_gpus
    simp only [hinit, Bool.not_true, Bool.false_eq_true, if_false]
    refine ⟨?_, ?_, ?_⟩
    · split
      · exact h1
      · exact h1
    · split
      · exact h2
      · exact h2
    · intro herr
      split
      · next hbad =>
        rw [herr] at hbad
        exact absurd (demi_scan_stop mask session N env.entries _ hbad.1) hbad.2
      · rfl

/-- The scenario of the specification: seat empty, `card0` (not boot VGA) scanned before
`card1` (boot VGA), capacity 2: `card1` is at index 0 and `card0` at index 1, in both
backends. -/
theorem boot_vga_first_if_reached_witness :
    ((udev.scan_loop ⟨"", []⟩ 2 ([udev_card0] ++ udev_card1 :: [])
        ⟨fun _ => none, 0, [], []⟩).ret 0 = some ⟨8, 57857⟩ ∧
      (udev.scan_loop ⟨"", []⟩ 2 ([udev_card0] ++ udev_card1 :: [])
        ⟨fun _ => none, 0, [], []⟩).ret 1 = some ⟨7, 57856⟩ ∧
      (udev.scan_loop ⟨"", []⟩ 2 ([udev_card0] ++ udev_card1 :: [])
        ⟨fun _ => none, 0, [], []⟩).count = 2) ∧
    ((demi.dev_find_gpus 1 ⟨"", []⟩ ⟨true, [demi_card0, demi_card1], false⟩ 2
        (fun _ => none)).ctx.ret 0 = some ⟨8, 57857⟩ ∧
      (demi.dev_find_gpus 1 ⟨"", []⟩ ⟨true, [demi_card0, demi_card1], false⟩ 2
        (fun _ => none)).ctx.ret 1 = some ⟨7, 57856⟩ ∧
      (demi.dev_find_gpus 1 ⟨"", []⟩ ⟨true, [demi_card0, demi_card1], false⟩ 2
        (fun _ => none)).retval = 2) :=
  ⟨⟨((boot_vga_first_if_reached ⟨"", []⟩ 2 (fun _ => none)).1 [udev_card0] [] udev_card1
        ⟨8, 57857⟩ (by decide) rfl (by decide) (by decide) (by decide)).1,
      by decide, by decide⟩,
    ⟨((boot_vga_first_if_reached ⟨"", []⟩ 2 (fun _ => none)).2 1
        ⟨true, [demi_card0, demi_card1], false⟩ [demi_card0] [] demi_card1 ⟨8, 57857⟩
        rfl rfl (by decide) rfl (by decide) (by decide) (by decide)).1,
      by decide, by decide⟩⟩

/-- C3 as stated fails: with capacity 1, seat empty and `card0` (not boot VGA) scanned
before `card1` (boot VGA), both eligible and `card1` the only boot-VGA-flagged candidate,
index 0 of the result holds the device of `card0`, not the one opened for `card1`, in both
backends. -/
theorem boot_vga_beyond_capacity_not_first :
    udev_eligible "" udev_card0 = true ∧ udev_boot_vga udev_card0 = false ∧
    udev_eligible "" udev_card1 = true ∧ udev_boot_vga udev_card1 = true ∧
    udev_card1.kms = some ⟨8, 57857⟩ ∧
    (udev.scan_loop ⟨"", []⟩ 1 [udev_card0, udev_card1] ⟨fun _ => none, 0, [], []⟩).ret 0
      = some ⟨7, 57856⟩ ∧
    (udev.scan_loop ⟨"", []⟩ 1 [udev_card0, udev_card1] ⟨fun _ => none, 0, [], []⟩).ret 0
      ≠ udev_card1.kms ∧
    (udev.scan_loop ⟨"", []⟩ 1 [udev_card0, udev_card1] ⟨fun _ => none, 0, [], []⟩).opens
      = [some "/dev/dri/card0"] ∧
    demi_eligible "" demi_card0 = true ∧ demi_boot_vga 1 demi_card0 = false ∧
    demi_eligible "" demi_card1 = true ∧ demi_boot_vga 1 demi_card1 = true ∧
    (demi.dev_find_gpus 1 ⟨"", []⟩ ⟨true, [demi_card0, demi_card1], false⟩ 1
      (fun _ => none)).ctx.ret 0 = some ⟨7, 57856⟩ ∧
    (demi.dev_find_gpus 1 ⟨"", []⟩ ⟨true, [demi_card0, demi_card1], false⟩ 1
      (fun _ => none)).ctx.ret 0 ≠ demi_card1.kms := by
  refine ⟨by decide, by decide, by decide, by decide, rfl, by decide, by decide, by decide,
    by decide, by decide, by decide, by decide, by decide, by decide⟩

/-! ## The capacity of the output array -/

theorem udev_scan_loop_within_capacity (session : wlr_session) (ret_len : Nat)
    (scan : List udev.udev_list_entry) (st : find_state) (hc : st.count ≤ ret_len)
    (hw : ∀ w ∈ st.writes, w < ret_len) :
    (udev.scan_loop session ret_len scan st).count ≤ ret_len ∧
    ∀ w ∈ (udev.scan_loop session ret_len scan st).writes, w < ret_len := by
  induction scan generalizing st with
  | nil => exact ⟨hc, hw⟩
  | cons e rest ih =>
    rw [udev_scan_loop_cons]
    split
    · exact ⟨hc, hw⟩
    · next hne =>
      have hlt : st.count < ret_len := by omega
      by_cases he : udev_eligible session.seat e = true
      · obtain ⟨h1, -, h3, -⟩ := udev_scan_step_eligible session e st he
        apply ih _ (by omega)
        rw [h3]
        intro w hwm
        rcases List.mem_append.1 hwm with h | h
        · exact hw w h
        · split at h
          · simp at h
            omega
          · simp at h
            omega
      · obtain ⟨h1, -, h3, -⟩ := udev_scan_step_not_eligible session e st (by simpa using he)
        apply ih _ (by omega)
        rw [h3]
        exact hw

theorem demi_callback_writes (mask : Nat) (session : wlr_session) (max_len : Nat)
    (entry : demi.scan_entry) (ctx : find_state)
    (h : demi_eligible session.seat entry = true) :
    (demi.find_gpus_callback mask session max_len entry ctx).ctx.writes =
      ctx.writes ++ (if demi_boot_vga mask entry = true then [ctx.count, 0, ctx.count]
        else [ctx.count]) := by
  unfold demi_eligible at h
  simp only [Bool.and_eq_true, decide_eq_true_eq] at h
  obtain ⟨⟨⟨hcls, hnode⟩, hseat⟩, hkms⟩ := h
  obtain ⟨devnode, hn⟩ := Option.isSome_iff_exists.1 hnode
  obtain ⟨wlr_dev, hk⟩ := Option.isSome_iff_exists.1 hkms
  have hs := (seat_filter_spec_iff _ _).1 hseat
  unfold demi_boot_vga
  simp only [demi.find_gpus_callback, hcls, hn, hk, if_neg hs, ne_eq, not_true_eq_false,
    if_false]
  split <;> split <;> rfl

theorem demi_scan_within_capacity (mask : Nat) (session : wlr_session) (max_len : Nat)
    (scan_error : Bool) (scan : List demi.scan_entry) (ctx : find_state)
    (hc : ctx.count < max_len) (hw : ∀ w ∈ ctx.writes, w < max_len) :
    (demi.demi_enumerate_scan_system (demi.find_gpus_callback mask session max_len)
      scan_error scan ctx).2.1.count ≤ max_len ∧
    ∀ w ∈ (demi.demi_enumerate_scan_system (demi.find_gpus_callback mask session max_len)
      scan_error scan ctx).2.1.writes, w < max_len := by
  induction scan generalizing ctx with
  | nil => exact ⟨by simp [demi.demi_enumerate_scan_system]; omega, hw⟩
  | cons e rest ih =>
    have hstep : (demi.find_gpus_callback mask session max_len e ctx).ctx.count ≤ max_len ∧
        (∀ w ∈ (demi.find_gpus_callback mask session max_len e ctx).ctx.writes,
          w < max_len) ∧
        (¬ (demi.find_gpus_callback mask session max_len e ctx).retval = -1 →
          (demi.find_gpus_callback mask session max_len e ctx).ctx.count < max_len) := by
      by_cases he : demi_eligible session.seat e = true
      · obtain ⟨h1, h2, -⟩ := demi_callback_eligible mask session max_len e ctx he
        refine ⟨by omega, ?_, fun hgo => ?_⟩
        · rw [demi_callback_writes mask session max_len e ctx he]
          intro w hwm
          rcases List.mem_append.1 hwm with h | h
          · exact hw w h
          · split at h
            · simp at h
              omega
            · simp at h
              omega
        · have : ¬ ctx.count + 1 = max_len := fun h => hgo (h2.2 h)
          omega
      · obtain ⟨-, h1, -, h3⟩ :=
          demi_callback_not_eligible mask session max_len e ctx (by simpa using he)
        exact ⟨by omega, by rw [h3]; exact hw, fun _ => by omega⟩
    rw [demi_scan_cons]
    split
    · exact ⟨hstep.1, hstep.2.1⟩
    · next hgo => exact ih _ (hstep.2.2 hgo) hstep.2.1

/-- C1 fails on the code of the demi backend: with capacity 0 and one candidate that can
be opened, `demi.dev_find_gpus` stores to index 0 of the output array and returns 1,
whatever the value of `DEMI_TYPE_BOOT_VGA`. -/
theorem demi_zero_capacity_overrun (mask : Nat) :
    (demi.dev_find_gpus mask ⟨"", []⟩
        ⟨true, [⟨⟨some .DEMI_CLASS_DRM, some "/dev/dri/card0", none, none, some 57856, none⟩,
          some ⟨7, 57856⟩⟩], false⟩ 0 (fun _ => none)).retval = 1 ∧
    (demi.dev_find_gpus mask ⟨"", []⟩
        ⟨true, [⟨⟨some .DEMI_CLASS_DRM, some "/dev/dri/card0", none, none, some 57856, none⟩,
          some ⟨7, 57856⟩⟩], false⟩ 0 (fun _ => none)).ctx.writes = [0] ∧
    (demi.dev_find_gpus mask ⟨"", []⟩
        ⟨true, [⟨⟨some .DEMI_CLASS_DRM, some "/dev/dri/card0", none, none, some 57856, none⟩,
          some ⟨7, 57856⟩⟩], false⟩ 0 (fun _ => none)).ctx.ret 0 = some ⟨7, 57856⟩ := by
  exact ⟨rfl, rfl, rfl⟩
